import Mathlib

/-!
Shallow embedding of the protocol engine of signalk-obd2-monitor:
`src/obd2-connection.js` (command scheduler, response parser, batch
decoder) and `src/connection-state-manager.js` (liveness state machine),
with the PID definition table of `src/pid-definitions.js`.

JavaScript strings are modelled as `List Char`; timers are modelled as
armed/not-armed flags; the synchronous EventEmitter wiring between the
state manager and the connection (`setupStateManagerHandlers`) is
modelled by an explicit event list returned by each state-manager
operation and dispatched by the connection.
-/

namespace OBD2

/-! ## JS string primitives -/

/-- The whitespace characters of JavaScript's `trim` / `\s` that can occur
on this byte stream (ASCII whitespace). -/
def isWS (c : Char) : Bool :=
  c = ' ' || c = '\t' || c = '\n' || c = '\r' || c = '\x0b' || c = '\x0c'

/-- JavaScript `String.prototype.trim`. -/
def trim (l : List Char) : List Char :=
  ((l.dropWhile isWS).reverse.dropWhile isWS).reverse

/-- JavaScript `String.prototype.includes`: `needle` occurs contiguously in
`hay` (the empty needle always occurs). -/
def hasSub : List Char → List Char → Bool
  | [], needle => needle.isEmpty
  | h :: t, needle => needle.isPrefixOf (h :: t) || hasSub t needle

/-- Splitter for `split(/sep+/)`: splits on maximal runs of separator
characters, keeping the empty pieces JavaScript keeps at the ends.
`cur` is the current piece (reversed), `lastSep` whether the previous
character was a separator. -/
def splitRunsAux (p : Char → Bool) : List Char → List Char → Bool → List (List Char)
  | [], cur, _ => [cur.reverse]
  | c :: rest, cur, lastSep =>
    if p c then
      if lastSep then splitRunsAux p rest cur true
      else cur.reverse :: splitRunsAux p rest [] true
    else splitRunsAux p rest (c :: cur) false

/-- `buffer.split(/[\r\n]+/)`. -/
def isCRLF (c : Char) : Bool := c = '\r' || c = '\n'

def splitCRLF (l : List Char) : List (List Char) := splitRunsAux isCRLF l [] false

/-- `response.trim().split(/\s+/)`. -/
def splitWS (l : List Char) : List (List Char) := splitRunsAux isWS l [] false

/-- The spaceless-response loop `for (i = 0; i < s.length; i += 2) parts.push(s.substr(i, 2))`. -/
def pairs : List Char → List (List Char)
  | [] => []
  | [a] => [[a]]
  | a :: b :: rest => [a, b] :: pairs rest

/-- `responses.join(' ')`. -/
def joinSpace : List (List Char) → List Char
  | [] => []
  | [l] => l
  | l :: rest => l ++ ' ' :: joinSpace rest

/-! ## Hex -/

/-- Value of one hex digit as `parseInt(·, 16)` reads it. A non-hex
character makes `parseInt` return NaN in JavaScript; that case is
modelled as 0 and is never exercised by the claims (which feed only
hex data). -/
def hexVal (c : Char) : Nat :=
  if '0' ≤ c ∧ c ≤ '9' then c.toNat - 48
  else if 'A' ≤ c ∧ c ≤ 'F' then c.toNat - 55
  else if 'a' ≤ c ∧ c ≤ 'f' then c.toNat - 87
  else 0

/-- `parseInt(s, 16)` on a string of hex digits. -/
def parseHexNat (l : List Char) : Nat := l.foldl (fun acc c => acc * 16 + hexVal c) 0

/-- Upper-case hex digit for a value below 16. -/
def hexDigit (n : Nat) : Char := if n < 10 then Char.ofNat (48 + n) else Char.ofNat (55 + n)

/-- The two-hex-character rendering of one byte. -/
def hexPair (b : Nat) : List Char := [hexDigit (b / 16), hexDigit (b % 16)]

/-- Concatenated hex rendering of a byte list (the wire form of PID data). -/
def hexOfBytes (bs : List Nat) : List Char := (bs.map hexPair).flatten

/-- Is the character a hex digit (either case)? -/
def isHexChar (c : Char) : Bool :=
  ('0' ≤ c && c ≤ '9') || ('A' ≤ c && c ≤ 'F') || ('a' ≤ c && c ≤ 'f')

/-! ## PID definitions (`src/pid-definitions.js`)

`convert` receives the parsed value bytes; `bytes[0]`/`bytes[1]` are
modelled as `getD` with default 0 (in JavaScript a missing index gives
`undefined`, propagating NaN — never exercised by the claims, which
always supply `bytes` values of the declared length). Values are ℚ in
place of JavaScript's floating-point numbers; the decoded `value` is
never the subject of a claim, only `pid` ordering and `raw` bytes. -/

structure PidDef where
  name : String
  bytes : Nat
  unit : String
  convert : List Nat → ℚ

/-- One-byte value as ℚ. -/
def b0 (bs : List Nat) : ℚ := (bs.getD 0 0 : ℚ)

/-- Big-endian two-byte value as ℚ. -/
def b01 (bs : List Nat) : ℚ := ((bs.getD 0 0 : ℚ)) * 256 + (bs.getD 1 0 : ℚ)

def pidDefinitions : List (List Char × PidDef) :=
  [ (['0','4'], ⟨"Calculated engine load", 1, "%", fun bs => b0 bs * 100 / 255⟩),
    (['0','5'], ⟨"Engine coolant temperature", 1, "°C", fun bs => b0 bs - 40⟩),
    (['0','A'], ⟨"Fuel pressure", 1, "kPa", fun bs => b0 bs * 3⟩),
    (['0','B'], ⟨"Intake manifold absolute pressure", 1, "kPa", fun bs => b0 bs⟩),
    (['0','C'], ⟨"Engine speed", 2, "rpm", fun bs => b01 bs / 4⟩),
    (['0','E'], ⟨"Timing advance", 1, "°", fun bs => (b0 bs - 128) / 2⟩),
    (['0','F'], ⟨"Intake air temperature", 1, "°C", fun bs => b0 bs - 40⟩),
    (['1','0'], ⟨"Mass air flow rate", 2, "g/s", fun bs => b01 bs / 100⟩),
    (['1','1'], ⟨"Throttle position", 1, "%", fun bs => b0 bs * 100 / 255⟩),
    (['1','F'], ⟨"Run time since engine start", 2, "seconds", fun bs => b01 bs⟩),
    (['2','1'], ⟨"Distance traveled with MIL on", 2, "km", fun bs => b01 bs⟩),
    (['2','2'], ⟨"Fuel Rail Pressure (relative to manifold vacuum)", 2, "kPa",
      fun bs => b01 bs * (79 / 1000)⟩),
    (['2','3'], ⟨"Fuel Rail Gauge Pressure", 2, "kPa", fun bs => b01 bs * 10⟩),
    (['2','C'], ⟨"Commanded EGR", 1, "%", fun bs => b0 bs * 100 / 255⟩),
    (['2','D'], ⟨"EGR Error", 1, "%", fun bs => (b0 bs - 128) * 100 / 128⟩),
    (['2','E'], ⟨"Commanded evaporative purge", 1, "%", fun bs => b0 bs * 100 / 255⟩),
    (['2','F'], ⟨"Fuel Tank Level Input", 1, "%", fun bs => b0 bs * 100 / 255⟩),
    (['3','0'], ⟨"Warm-ups since codes cleared", 1, "count", fun bs => b0 bs⟩),
    (['3','1'], ⟨"Distance traveled since codes cleared", 2, "km", fun bs => b01 bs⟩),
    (['3','2'], ⟨"Evap. System Vapor Pressure", 2, "Pa", fun bs => b01 bs / 4⟩),
    (['3','3'], ⟨"Absolute Barometric Pressure", 1, "kPa", fun bs => b0 bs⟩),
    (['3','C'], ⟨"Catalyst Temperature: Bank 1, Sensor 1", 2, "°C", fun bs => b01 bs / 10 - 40⟩),
    (['3','D'], ⟨"Catalyst Temperature: Bank 2, Sensor 1", 2, "°C", fun bs => b01 bs / 10 - 40⟩),
    (['3','E'], ⟨"Catalyst Temperature: Bank 1, Sensor 2", 2, "°C", fun bs => b01 bs / 10 - 40⟩),
    (['3','F'], ⟨"Catalyst Temperature: Bank 2, Sensor 2", 2, "°C", fun bs => b01 bs / 10 - 40⟩),
    (['4','2'], ⟨"Control module voltage", 2, "V", fun bs => b01 bs / 1000⟩),
    (['4','3'], ⟨"Absolute load value", 2, "%", fun bs => b01 bs * 100 / 255⟩),
    (['4','4'], ⟨"Commanded Air-Fuel Equivalence Ratio", 2, "ratio", fun bs => b01 bs / 32768⟩),
    (['4','5'], ⟨"Relative throttle position", 1, "%", fun bs => b0 bs * 100 / 255⟩),
    (['4','6'], ⟨"Ambient air temperature", 1, "°C", fun bs => b0 bs - 40⟩),
    (['4','7'], ⟨"Absolute throttle position B", 1, "%", fun bs => b0 bs * 100 / 255⟩),
    (['4','8'], ⟨"Absolute throttle position C", 1, "%", fun bs => b0 bs * 100 / 255⟩),
    (['4','9'], ⟨"Accelerator pedal position D", 1, "%", fun bs => b0 bs * 100 / 255⟩),
    (['4','A'], ⟨"Accelerator pedal position E", 1, "%", fun bs => b0 bs * 100 / 255⟩),
    (['4','B'], ⟨"Accelerator pedal position F", 1, "%", fun bs => b0 bs * 100 / 255⟩),
    (['4','C'], ⟨"Commanded throttle actuator", 1, "%", fun bs => b0 bs * 100 / 255⟩),
    (['4','D'], ⟨"Time run with MIL on", 2, "minutes", fun bs => b01 bs⟩),
    (['4','E'], ⟨"Time since trouble codes cleared", 2, "minutes", fun bs => b01 bs⟩),
    (['5','C'], ⟨"Engine oil temperature", 1, "°C", fun bs => b0 bs - 40⟩),
    (['5','E'], ⟨"Engine fuel rate", 2, "L/h", fun bs => b01 bs / 20⟩),
    (['6','6'], ⟨"Mass air flow sensor (alternative)", 2, "g/s", fun bs => b01 bs / 100⟩),
    (['9','E'], ⟨"Engine fuel rate (alternative)", 2, "L/h", fun bs => b01 bs / 20⟩),
    (['A','2'], ⟨"Cylinder fuel rate", 2, "mg/stroke", fun bs => b01 bs / 32⟩),
    (['2','2',':','0','5','4','5'], ⟨"Fuel consumption (Hyundai)", 2, "L/h",
      fun bs => b01 bs * (1 / 100)⟩),
    (['2','2',':','0','0','4','5'], ⟨"Fuel consumption (Hyundai alt)", 2, "L/h",
      fun bs => b01 bs * (1 / 100)⟩) ]

/-- Object-key lookup. -/
def lookupPid : List (List Char × PidDef) → List Char → Option PidDef
  | [], _ => none
  | (k, v) :: rest, key => if k = key then some v else lookupPid rest key

/-- `PidDefinitions.getPidDefinition(pid)`: looks up `pid.toUpperCase()`. -/
def getPidDefinition (pid : List Char) : Option PidDef :=
  lookupPid pidDefinitions (pid.map Char.toUpper)

/-! ## Connection state manager (`src/connection-state-manager.js`) -/

/-- The values of `this.STATES`. -/
inductive CState
  | disconnected | connecting | adapterCheck | engineCheck
  | initializing | active | probing | engineOff
deriving DecidableEq, Repr

/-- State of a `ConnectionStateManager` instance. Timers are armed/not-armed
flags; the `Date` stamps (`lastSuccessfulData`, `lastProbeTime`) are modelled
as set/not-set. -/
structure CSM where
  state : CState
  lastSuccessfulData : Bool
  consecutiveFailures : Nat
  lastProbeTime : Bool
  adapterInfo : Option (List Char)
  maxConsecutiveFailures : Nat
  probeInterval : Nat
  probeTimeout : Bool
deriving DecidableEq, Repr

/-- The constructor's initial state. -/
def initCSM : CSM :=
  { state := .disconnected, lastSuccessfulData := false, consecutiveFailures := 0,
    lastProbeTime := false, adapterInfo := none, maxConsecutiveFailures := 5,
    probeInterval := 2000, probeTimeout := false }

/-- Events the state manager emits; handled synchronously by the
connection's `setupStateManagerHandlers`. -/
inductive CsmEvent
  | stateChange (oldS newS : CState)
  | startProbing
  | resumeNormalPolling
  | probe
  | connectionLost
deriving DecidableEq, Repr

/-- `setState`: records the new state, emits `stateChange`, and clears the
probe-interval timer when leaving `PROBING`. -/
def CSM.setState (m : CSM) (newState : CState) : CSM × List CsmEvent :=
  let oldState := m.state
  let m1 := { m with state := newState }
  let m2 := if oldState = .probing ∧ m1.probeTimeout then { m1 with probeTimeout := false } else m1
  (m2, [.stateChange oldState newState])

def CSM.onConnected (m : CSM) : CSM × List CsmEvent := m.setState .connecting

def CSM.onAdapterCheck (m : CSM) : CSM × List CsmEvent := m.setState .adapterCheck

def CSM.onEngineCheck (m : CSM) : CSM × List CsmEvent := m.setState .engineCheck

def CSM.onInitializing (m : CSM) : CSM × List CsmEvent := m.setState .initializing

def CSM.onEngineOff (m : CSM) : CSM × List CsmEvent :=
  let (m1, evs) := m.setState .engineOff
  ({ m1 with consecutiveFailures := 0 }, evs)

def CSM.onInitialized (m : CSM) : CSM × List CsmEvent :=
  let (m1, evs) := m.setState .active
  ({ m1 with consecutiveFailures := 0 }, evs)

def CSM.onDisconnected (m : CSM) : CSM × List CsmEvent :=
  let (m1, evs) := m.setState .disconnected
  ({ m1 with consecutiveFailures := 0, lastSuccessfulData := false }, evs)

/-- `onDataReceived`: stamps the success time, resets the failure counter,
and when probing switches back to `ACTIVE` and asks polling to resume. -/
def CSM.onDataReceived (m : CSM) : CSM × List CsmEvent :=
  let m1 := { m with lastSuccessfulData := true, consecutiveFailures := 0 }
  if m1.state = .probing then
    let (m2, evs) := m1.setState .active
    (m2, evs ++ [.resumeNormalPolling])
  else (m1, [])

/-- `onNoData`: counts the failure and, when `ACTIVE` and at or past the
threshold, switches to `PROBING` and starts probing. -/
def CSM.onNoData (m : CSM) : CSM × List CsmEvent :=
  let m1 := { m with consecutiveFailures := m.consecutiveFailures + 1 }
  if m1.state = .active ∧ m1.maxConsecutiveFailures ≤ m1.consecutiveFailures then
    let (m2, evs) := m1.setState .probing
    (m2, evs ++ [.startProbing])
  else (m1, [])

/-- `onProbeResponse(success, response)`. -/
def CSM.onProbeResponse (m : CSM) (success : Bool) : CSM × List CsmEvent :=
  let m1 := { m with lastProbeTime := true }
  if success then
    let (m2, evs) := m1.setState .active
    ({ m2 with consecutiveFailures := 0 }, evs ++ [.resumeNormalPolling])
  else
    if 10 < m1.consecutiveFailures then
      let (m2, evs) := m1.setState .disconnected
      (m2, evs ++ [.connectionLost])
    else (m1, [])

/-- `scheduleNextProbe`: arms the probe-interval timer, but only while in
`PROBING`. -/
def CSM.scheduleNextProbe (m : CSM) : CSM :=
  if m.state = .probing then { m with probeTimeout := true } else m

def CSM.setAdapterInfo (m : CSM) (info : List Char) : CSM :=
  { m with adapterInfo := some info }

/-! ## OBD2 connection (`src/obd2-connection.js`) -/

/-- Literal tokens of the protocol. -/
def tok41 : List Char := ['4', '1']

def tok62 : List Char := ['6', '2']

def tok41sp : List Char := ['4', '1', ' ']

def tok62sp : List Char := ['6', '2', ' ']

def tok4100 : List Char := ['4', '1', '0', '0']

def tok41sp00 : List Char := ['4', '1', ' ', '0', '0']

def tokNoData : List Char := ['N', 'O', ' ', 'D', 'A', 'T', 'A']

def tokUnable : List Char := ['U', 'N', 'A', 'B', 'L', 'E', ' ', 'T', 'O', ' ',
  'C', 'O', 'N', 'N', 'E', 'C', 'T']

def tokCanError : List Char := ['C', 'A', 'N', ' ', 'E', 'R', 'R', 'O', 'R']

def tokQuestion : List Char := ['?']

def tokSearching : List Char := ['S', 'E', 'A', 'R', 'C', 'H', 'I', 'N', 'G']

def tok22colon : List Char := ['2', '2', ':']

def tok01 : List Char := ['0', '1']

def tok22 : List Char := ['2', '2']

def cmd0100 : List Char := ['0', '1', '0', '0']

def tokELM : List Char := ['E', 'L', 'M', '3', '2', '7']

def tokSTN : List Char := ['S', 'T', 'N']

def tokOBD : List Char := ['O', 'B', 'D']

/-- `pid.startsWith('22:')`. -/
def isMode22Pid (pid : List Char) : Bool := tok22colon.isPrefixOf pid

/-- One decoded sensor value as found in the `data` event payload. -/
structure Reading where
  pid : List Char
  name : String
  value : ℚ
  unit : String
  raw : List Nat
deriving DecidableEq, Repr

/-- The initialization handshake stages (`this.initStage`). -/
inductive InitStage
  | adapterCheck | engineCheck
deriving DecidableEq, Repr

/-- Observable outputs of the connection. `.cmd` is a `port.write`;
`.request` records the scheduler-level Command of the data model (its
ordered target PIDs and wire text) at the point `requestSinglePid` /
`requestPidBatch` issue it; `.skip` is the debug log of a skipped PID
during batch de-concatenation. -/
inductive Emit
  | cmd (wire : List Char)
  | request (targets : List (List Char)) (wire : List Char)
  | reading (r : Reading)
  | skip (expected found : List Char)
  | stateChange (oldS newS : CState)
  | adapterVerified
  | adapterError
  | engineVerified
  | engineOffEvent
  | engineError
deriving DecidableEq, Repr

/-- State of an `OBD2Connection` instance. `setTimeout` handles are
modelled as armed flags; `initDelayTimersPending` counts the anonymous
`setTimeout`s of `completeInitialization`'s command chain (they hold no
handle in the source and cannot be cleared); `engineCheckDelayArmed` /
`completeInitDelayArmed` are the anonymous 500 ms stage-advance delays.
`customMappings` of the engine profile is `{}` for every shipped profile
and is modelled as absent. -/
structure Conn where
  enabledPids : List (List Char)
  currentPidIndex : Nat
  initialized : Bool
  buffer : List Char
  lastCommand : Option (List Char)
  batchMode : Bool
  maxBatchSize : Nat
  awaitingResponse : Bool
  responseTimeoutArmed : Bool
  continuousMode : Bool
  batchModeFailed : Bool
  currentBatch : Option (List (List Char))
  initStage : Option InitStage
  isProbing : Bool
  probeTimeoutArmed : Bool
  reconnectTimeoutArmed : Bool
  adapterCheckTimeoutArmed : Bool
  engineCheckTimeoutArmed : Bool
  engineCheckDelayArmed : Bool
  completeInitDelayArmed : Bool
  initDelayTimersPending : Nat
  portOpen : Bool
  csm : CSM
deriving DecidableEq, Repr

/-- `sendCommand(command)`: writes when the port is open, recording
`lastCommand`. -/
def sendCommand (s : Conn) (command : List Char) : Conn × List Emit :=
  if s.portOpen then ({ s with lastCommand := some command }, [.cmd command])
  else (s, [])

/-- `requestSinglePid()`: issues `'22' + pid.substring(3)` for a Mode 22
PID, `'01' + pid` otherwise, arms the response timeout, and advances the
cursor by one. -/
def requestSinglePid (s : Conn) : Conn × List Emit :=
  let pid := s.enabledPids.getD s.currentPidIndex []
  let command := if isMode22Pid pid then tok22 ++ pid.drop 3 else tok01 ++ pid
  let r := sendCommand s command
  ({ r.1 with awaitingResponse := true, responseTimeoutArmed := true,
              currentPidIndex := (r.1.currentPidIndex + 1) % r.1.enabledPids.length },
   r.2 ++ [.request [pid] command])

/-- The Mode 22 scan of `requestPidBatch`:
`for (i = 0; i < maxBatchSize && (currentPidIndex + i) < enabledPids.length; i++)`.
The loop's index guard is monotone in `i` (once `cursor + i` reaches the
list length it stays there), so the loop with early exit equals this
`any` over the full range with the guard conjoined. -/
def hasMode22Window (pids : List (List Char)) (maxBatchSize cursor : Nat) : Bool :=
  (List.range maxBatchSize).any fun i =>
    decide (cursor + i < pids.length) && isMode22Pid (pids.getD ((cursor + i) % pids.length) [])

/-- `requestPidBatch()`. -/
def requestPidBatch (s : Conn) : Conn × List Emit :=
  if s.batchModeFailed then
    requestSinglePid { s with batchMode := false }
  else if hasMode22Window s.enabledPids s.maxBatchSize s.currentPidIndex then
    let r := requestSinglePid { s with batchMode := false }
    ({ r.1 with batchMode := true }, r.2)
  else
    let remainingPids := s.enabledPids.length - s.currentPidIndex
    let batchSize := min s.maxBatchSize remainingPids
    let pidsInBatch := (List.range batchSize).map fun i =>
      s.enabledPids.getD ((s.currentPidIndex + i) % s.enabledPids.length) []
    let command := tok01 ++ pidsInBatch.flatten
    let r := sendCommand s command
    ({ r.1 with awaitingResponse := true, responseTimeoutArmed := true,
                currentBatch := some pidsInBatch,
                currentPidIndex := (r.1.currentPidIndex + batchSize) % r.1.enabledPids.length },
     r.2 ++ [.request pidsInBatch command])

/-- `requestNextPid()`: no-op unless initialized, with PIDs configured and
no request outstanding. -/
def requestNextPid (s : Conn) : Conn × List Emit :=
  if ¬s.initialized ∨ s.enabledPids.length = 0 ∨ s.awaitingResponse then (s, [])
  else if s.batchMode then requestPidBatch s
  else requestSinglePid s

/-- `sendProbeCommand()`: sends `0100` and arms the probe-response
timeout. -/
def sendProbeCommand (s : Conn) : Conn × List Emit :=
  if ¬s.portOpen then (s, [])
  else
    let s1 := { s with lastCommand := some cmd0100, isProbing := true }
    let r := sendCommand s1 cmd0100
    ({ r.1 with probeTimeoutArmed := true }, r.2)

/-- `startProbing()`: stops normal polling and sends the first probe. -/
def startProbing (s : Conn) : Conn × List Emit :=
  sendProbeCommand { s with continuousMode := false }

/-- `scheduleReconnect()`: arms the reconnect timer unless already armed. -/
def scheduleReconnect (s : Conn) : Conn :=
  if s.reconnectTimeoutArmed then s else { s with reconnectTimeoutArmed := true }

/-- The connection's handlers of `setupStateManagerHandlers`, run
synchronously on each event the state manager emits. -/
def dispatchCsmEvent (s : Conn) : CsmEvent → Conn × List Emit
  | .stateChange o n => (s, [.stateChange o n])
  | .startProbing => startProbing s
  | .probe => sendProbeCommand s
  | .resumeNormalPolling =>
      if s.initialized ∧ s.continuousMode then requestNextPid s else (s, [])
  | .connectionLost => (scheduleReconnect s, [])

def dispatchCsmEvents (s : Conn) : List CsmEvent → Conn × List Emit
  | [] => (s, [])
  | e :: rest =>
    let r := dispatchCsmEvent s e
    let r2 := dispatchCsmEvents r.1 rest
    (r2.1, r.2 ++ r2.2)

/-- Runs a state-manager operation, then the connection's handlers of the
events it emitted. -/
def runCsm (s : Conn) (op : CSM → CSM × List CsmEvent) : Conn × List Emit :=
  let r := op s.csm
  dispatchCsmEvents { s with csm := r.1 } r.2

def tokSpace : List Char := [' ']

def tokPrompt : List Char := ['>']

/-- Looks up the PID definition, decodes, notifies the state manager and
emits the `data` event (the tail of `processResponse` after parts are
split; unknown PIDs produce nothing). -/
def emitReading (s : Conn) (pid : List Char) (valueBytes : List Nat) : Conn × List Emit :=
  match getPidDefinition pid with
  | none => (s, [])
  | some pidDef =>
    let finalValue := pidDef.convert valueBytes
    let r := runCsm s CSM.onDataReceived
    (r.1, r.2 ++ [.reading ⟨pid, pidDef.name, finalValue, pidDef.unit, valueBytes⟩])

/-- The shared tail of `processResponse` once `parts` is built. -/
def processResponseParts (s : Conn) (parts : List (List Char)) : Conn × List Emit :=
  let responseMode := parts.getD 0 []
  if parts.length < 3 ∨ (responseMode ≠ tok41 ∧ responseMode ≠ tok62) then (s, [])
  else if responseMode = tok62 then
    if parts.length < 4 then (s, [])
    else emitReading s (tok22colon ++ parts.getD 1 [] ++ parts.getD 2 [])
      ((parts.drop 3).map parseHexNat)
  else emitReading s (parts.getD 1 []) ((parts.drop 2).map parseHexNat)

/-- `processResponse(response)`. The `try/catch` of the source can only be
entered by a thrown exception; no operation of the modelled body throws,
so the catch arm is not represented. -/
def processResponse (s : Conn) (response : List Char) : Conn × List Emit :=
  if (¬hasSub response tok41 ∧ ¬hasSub response tok62) ∨ hasSub response tokNoData then (s, [])
  else if hasSub response tokSpace then processResponseParts s (splitWS (trim response))
  else
    let cleanResponse := trim response
    let isM22 := tok62.isPrefixOf cleanResponse
    let minLength := if isM22 then 8 else 6
    if cleanResponse.length < minLength ∨
        (¬tok41.isPrefixOf cleanResponse ∧ ¬tok62.isPrefixOf cleanResponse) then (s, [])
    else processResponseParts s (pairs cleanResponse)

/-- The per-PID loop of `processBatchResponseWithoutSpaces`: walks the
pending batch's target list against the concatenated reply. On a PID
mismatch the source logs the skip and `continue`s — the read cursor
(`remaining`) is left unchanged; only the unknown-PID arm advances it by
the identifier length. -/
def batchWalk (s : Conn) : List (List Char) → List Char → Conn × List Emit
  | [], _ => (s, [])
  | pid :: rest, remaining =>
    if remaining.length < 2 then (s, [])
    else
      let responsePid := remaining.take 2
      if responsePid ≠ pid then
        let r := batchWalk s rest remaining
        (r.1, Emit.skip pid responsePid :: r.2)
      else
        match getPidDefinition pid with
        | none => batchWalk s rest (remaining.drop 2)
        | some pidDef =>
          let dataLength := pidDef.bytes * 2
          if remaining.length < 2 + dataLength then (s, [])
          else
            let individualResponse := tok41 ++ remaining.take (2 + dataLength)
            let r1 := processResponse s individualResponse
            let r2 := batchWalk r1.1 rest (remaining.drop (2 + dataLength))
            (r2.1, r1.2 ++ r2.2)

/-- `processBatchResponseWithoutSpaces(response)`. -/
def processBatchResponseWithoutSpaces (s : Conn) (response : List Char) : Conn × List Emit :=
  if ¬tok41.isPrefixOf response then (s, [])
  else batchWalk s (s.currentBatch.getD []) (response.drop 2)

/-- The `dataResponses` filter of `processBatchResponse`. -/
def isDataResponse (r : List Char) : Bool :=
  tok41.isPrefixOf r || tok62.isPrefixOf r || hasSub r tok41sp || hasSub r tok62sp

/-- The `dataResponses.forEach(r => processResponse(r))` loop. -/
def processResponseList (s : Conn) : List (List Char) → Conn × List Emit
  | [] => (s, [])
  | r :: rest =>
    let a := processResponse s r
    let b := processResponseList a.1 rest
    (b.1, a.2 ++ b.2)

/-- `processBatchResponse(responses)`. -/
def processBatchResponse (s : Conn) (responses : List (List Char)) : Conn × List Emit :=
  let dataResponses := responses.filter isDataResponse
  if dataResponses.length = 0 then
    if responses.any fun r => hasSub r tokNoData then runCsm s CSM.onNoData
    else if responses.any fun r => hasSub r tokUnable then (s, [])
    else if responses.any fun r => hasSub r tokCanError then (s, [])
    else if responses.any fun r => hasSub r tokQuestion then
      if s.batchMode ∧ s.currentBatch.isSome then
        ({ s with batchModeFailed := true, batchMode := false }, [])
      else (s, [])
    else (s, [])
  else if dataResponses.length = 1 ∧ s.batchMode ∧ s.currentBatch.isSome then
    let response := dataResponses.getD 0 []
    if ¬hasSub response tokSpace ∧ 10 < response.length then
      processBatchResponseWithoutSpaces s response
    else processResponseList s dataResponses
  else processResponseList s dataResponses

/-- `handleAdapterCheckResponse(responses)`: clears the stage timeout, and
on a recognised identity records it and arms the 500 ms delay to the
engine check. -/
def handleAdapterCheckResponse (s : Conn) (responses : List (List Char)) : Conn × List Emit :=
  let s1 := { s with adapterCheckTimeoutArmed := false }
  let response := joinSpace responses
  if hasSub response tokELM || hasSub response tokSTN || hasSub response tokOBD then
    let s2 := { s1 with csm := s1.csm.setAdapterInfo response }
    ({ s2 with engineCheckDelayArmed := true }, [.adapterVerified])
  else (s1, [.adapterError])

/-- `handleEngineCheckResponse(responses)`: on engine data arms the 500 ms
delay to `completeInitialization`; on `NO DATA` marks the engine off and
starts probing. -/
def handleEngineCheckResponse (s : Conn) (responses : List (List Char)) : Conn × List Emit :=
  let s1 := { s with engineCheckTimeoutArmed := false }
  let response := joinSpace responses
  if hasSub response tok41sp00 || hasSub response tok4100 then
    ({ s1 with completeInitDelayArmed := true }, [.engineVerified])
  else if hasSub response tokNoData then
    let r := runCsm s1 CSM.onEngineOff
    let s2 := { r.1 with initialized := true, initStage := none }
    let r2 := startProbing s2
    (r2.1, r.2 ++ [.engineOffEvent] ++ r2.2)
  else (s1, [.engineError])

/-- `handleProbeResponse(response)`. -/
def handleProbeResponse (s : Conn) (response : List Char) : Conn × List Emit :=
  let s1 := { s with probeTimeoutArmed := false }
  if hasSub response tok4100 || hasSub response tok41sp00 then
    let r := runCsm s1 fun m => m.onProbeResponse true
    ({ r.1 with continuousMode := true, isProbing := false }, r.2)
  else if hasSub response tokNoData then
    let r := runCsm s1 fun m => m.onProbeResponse true
    ({ r.1 with csm := r.1.csm.scheduleNextProbe }, r.2)
  else
    let r := runCsm s1 fun m => m.onProbeResponse false
    ({ r.1 with csm := r.1.csm.scheduleNextProbe }, r.2)

/-- The probe-response timeout callback armed by `sendProbeCommand`. -/
def probeTimeoutFire (s : Conn) : Conn × List Emit :=
  let s1 := { s with probeTimeoutArmed := false }
  let r := runCsm s1 fun m => m.onProbeResponse false
  ({ r.1 with csm := r.1.csm.scheduleNextProbe }, r.2)

/-- Is the line three hex digits (a byte-count prefix)? -/
def isHex3 (l : List Char) : Bool := l.length = 3 && l.all isHexChar

/-- The `/^(\d+):\s*(.+)$/` line-number strip of `handleData` (the line is
already trimmed, so a non-empty remainder survives the whitespace drop). -/
def stripLineNumber (line : List Char) : List Char :=
  let ds := line.takeWhile Char.isDigit
  let rest := line.drop ds.length
  match ds, rest with
  | _ :: _, ':' :: r =>
    let r2 := r.dropWhile isWS
    if r2.isEmpty then line else r2
  | _, _ => line

/-- The response-cleaning loop of `handleData`: trims, drops blanks, the
prompt and `SEARCHING` lines, drops a 3-hex-digit byte-count line unless
it is the last line, and strips line-number prefixes. -/
def cleanLines : List (List Char) → List (List Char)
  | [] => []
  | l :: ls =>
    let line := trim l
    if line.length = 0 ∨ line = tokPrompt ∨ tokSearching.isPrefixOf line then cleanLines ls
    else if isHex3 line ∧ ls ≠ [] then cleanLines ls
    else stripLineNumber line :: cleanLines ls

/-- `handleData(data)`, without the trailing `setImmediate` poll: appends
the chunk, and once the buffer holds the `>` prompt clears the response
timeout and the awaiting-response guard, parses and dispatches the
cleaned lines, and clears the buffer. -/
def handleDataCore (s : Conn) (data : List Char) : Conn × List Emit :=
  let s0 := { s with buffer := s.buffer ++ data }
  if ¬s0.buffer.contains '>' then (s0, [])
  else
    let s1 := { s0 with responseTimeoutArmed := false, awaitingResponse := false }
    let responses := cleanLines (splitCRLF s1.buffer)
    let r :=
      if responses.length ≠ 0 then
        if s1.initStage = some .adapterCheck then handleAdapterCheckResponse s1 responses
        else if s1.initStage = some .engineCheck then handleEngineCheckResponse s1 responses
        else if s1.isProbing ∧ s1.lastCommand = some cmd0100 then
          handleProbeResponse s1 (joinSpace responses)
        else processBatchResponse s1 responses
      else (s1, [])
    ({ r.1 with buffer := [] }, r.2)

/-- `handleData(data)` including the `setImmediate(() => requestNextPid())`
poll that follows prompt processing in continuous mode. -/
def handleData (s : Conn) (data : List Char) : Conn × List Emit :=
  if (s.buffer ++ data).contains '>' then
    let r := handleDataCore s data
    if r.1.continuousMode ∧ r.1.initialized then
      let r2 := requestNextPid r.1
      (r2.1, r.2 ++ r2.2)
    else r
  else handleDataCore s data

/-- The response-timeout callback of `setResponseTimeout`: demotes batch
mode when a batch is recorded, clears the awaiting-response guard, and in
continuous mode immediately requests the next PID. It does not touch the
state manager. -/
def responseTimeoutFire (s : Conn) : Conn × List Emit :=
  let s1 := if s.batchMode ∧ s.currentBatch.isSome then
      { s with batchModeFailed := true, batchMode := false } else s
  let s2 := { s1 with awaitingResponse := false, responseTimeoutArmed := false }
  if s2.continuousMode then requestNextPid s2 else (s2, [])

/-- The synchronous body of `disconnect()`: clears the response, reconnect,
probe, adapter-check and engine-check timers, then initiates the port
close (whose `close` event is asynchronous and not part of this body).
The state manager's probe-interval timer and the anonymous
initialization-sequence timers are not touched. -/
def disconnect (s : Conn) : Conn :=
  let s1 := { s with responseTimeoutArmed := false }
  let s2 := if s1.reconnectTimeoutArmed then { s1 with reconnectTimeoutArmed := false } else s1
  let s3 := if s2.probeTimeoutArmed then { s2 with probeTimeoutArmed := false } else s2
  let s4 := if s3.adapterCheckTimeoutArmed then { s3 with adapterCheckTimeoutArmed := false }
    else s3
  if s4.engineCheckTimeoutArmed then { s4 with engineCheckTimeoutArmed := false } else s4

/-- `completeInitialization()`: enters `INITIALIZING` and schedules the
anonymous command-chain timers (four commands and the final
initialization mark — five `setTimeout`s holding no handle). -/
def completeInitialization (s : Conn) : Conn × List Emit :=
  let r := runCsm s CSM.onInitializing
  ({ r.1 with initDelayTimersPending := 5 }, r.2)

/-! ## Serialized event loop -/

/-- One externally triggered event of the connection's single-threaded
event loop: a poll request, the response-timeout firing, or a chunk of
transport data. -/
inductive Ev
  | reqNext
  | timeoutFire
  | dataChunk (d : List Char)
deriving DecidableEq, Repr

def step (s : Conn) : Ev → Conn × List Emit
  | .reqNext => requestNextPid s
  | .timeoutFire => responseTimeoutFire s
  | .dataChunk d => handleData s d

def run (s : Conn) : List Ev → Conn × List Emit
  | [] => (s, [])
  | e :: es =>
    let r := step s e
    let r2 := run r.1 es
    (r2.1, r.2 ++ r2.2)

/-! ## Output projections -/

def Emit.requestOf : Emit → Option (List (List Char) × List Char)
  | .request t w => some (t, w)
  | _ => none

def Emit.readingOf : Emit → Option Reading
  | .reading r => some r
  | _ => none

/-- The scheduler-level Commands among the outputs. -/
def requestsOf (evs : List Emit) : List (List (List Char) × List Char) :=
  evs.filterMap Emit.requestOf

/-- The emitted Readings among the outputs. -/
def readingsOf (evs : List Emit) : List Reading := evs.filterMap Emit.readingOf

/-- Does a Command mix modes? `true` when all targets are Mode 22 or all
are Mode 01. -/
def uniformMode (targets : List (List Char)) : Bool :=
  targets.all (fun p => isMode22Pid p) || targets.all (fun p => !isMode22Pid p)

/-- Every scheduler-level Command in the output has targets of one mode
only. -/
def emitUniform : Emit → Bool
  | .request t _ => uniformMode t
  | _ => true

/-- Every scheduler-level Command in the output is a single-PID command. -/
def emitRequestSingle : Emit → Bool
  | .request t _ => t.length = 1
  | _ => true

/-- Does the output contain a scheduler-level Command? -/
def emitIsRequest : Emit → Bool
  | .request _ _ => true
  | _ => false

/-! ## Helper lemmas: strings and hex -/

theorem hasSub_subset {hay needle : List Char} (h : hasSub hay needle = true) :
    ∀ c ∈ needle, c ∈ hay := by
  induction hay with
  | nil =>
    intro c hc
    simp [hasSub, List.isEmpty_iff] at h
    simp [h] at hc
  | cons a t ih =>
    intro c hc
    simp only [hasSub, Bool.or_eq_true] at h
    rcases h with h | h
    · rw [List.isPrefixOf_iff_prefix] at h
      exact h.subset hc
    · exact List.mem_cons_of_mem a (ih h c hc)

theorem hasSub_eq_false {hay needle : List Char} {c : Char} (hc : c ∈ needle)
    (hh : c ∉ hay) : hasSub hay needle = false := by
  by_contra h
  exact hh (hasSub_subset (by simpa using h) c hc)

theorem hasSub_of_prefix {hay needle : List Char} (h : needle.isPrefixOf hay = true) :
    hasSub hay needle = true := by
  cases hay with
  | nil =>
    cases needle with
    | nil => rfl
    | cons a t => simp [List.isPrefixOf] at h
  | cons a t => simp [hasSub, h]

theorem dropWhile_eq_self_of {p : Char → Bool} {l : List Char}
    (h : ∀ c ∈ l, p c = false) : l.dropWhile p = l := by
  cases l with
  | nil => rfl
  | cons a t => simp [List.dropWhile_cons, h a (List.mem_cons_self a t)]

theorem trim_eq_self_of {l : List Char} (h : ∀ c ∈ l, isWS c = false) : trim l = l := by
  unfold trim
  rw [dropWhile_eq_self_of h, dropWhile_eq_self_of (by simpa using h), List.reverse_reverse]

theorem pairs_cons2 (a b : Char) (l : List Char) :
    pairs (a :: b :: l) = [a, b] :: pairs l := rfl

theorem hexOfBytes_cons (b : Nat) (bs : List Nat) :
    hexOfBytes (b :: bs) = hexPair b ++ hexOfBytes bs := by
  simp [hexOfBytes]

theorem hexOfBytes_length (bs : List Nat) : (hexOfBytes bs).length = 2 * bs.length := by
  induction bs with
  | nil => rfl
  | cons b t ih => simp [hexOfBytes_cons, hexPair, ih]; ring

theorem pairs_hexOfBytes (bs : List Nat) : pairs (hexOfBytes bs) = bs.map hexPair := by
  induction bs with
  | nil => rfl
  | cons b t ih => rw [hexOfBytes_cons, hexPair, List.cons_append, List.cons_append,
      List.nil_append, pairs_cons2, ← hexPair, ih, List.map_cons]

theorem hexVal_hexDigit : ∀ n < 16, hexVal (hexDigit n) = n := by decide

theorem isHexChar_hexDigit : ∀ n < 16, isHexChar (hexDigit n) = true := by decide

theorem parseHexNat_hexPair {b : Nat} (hb : b < 256) : parseHexNat (hexPair b) = b := by
  have h1 : b / 16 < 16 := by omega
  have h2 : b % 16 < 16 := by omega
  simp [parseHexNat, hexPair, List.foldl, hexVal_hexDigit _ h1, hexVal_hexDigit _ h2]
  omega

theorem mem_hexOfBytes_hex {bs : List Nat} (hb : ∀ b ∈ bs, b < 256) :
    ∀ c ∈ hexOfBytes bs, isHexChar c = true := by
  induction bs with
  | nil => intro c hc; simp [hexOfBytes] at hc
  | cons b t ih =>
    intro c hc
    rw [hexOfBytes_cons] at hc
    rcases List.mem_append.1 hc with hc | hc
    · have hblt := hb b (List.mem_cons_self b t)
      have h1 : b / 16 < 16 := by omega
      have h2 : b % 16 < 16 := by omega
      simp [hexPair] at hc
      rcases hc with rfl | rfl
      · exact isHexChar_hexDigit _ h1
      · exact isHexChar_hexDigit _ h2
    · exact ih (fun x hx => hb x (List.mem_cons_of_mem b hx)) c hc

theorem isWS_eq_false_of_hex {c : Char} (h : isHexChar c = true) : isWS c = false := by
  by_contra hw
  simp only [Bool.not_eq_false] at hw
  simp only [isWS, Bool.or_eq_true, decide_eq_true_eq] at hw
  rcases hw with ((((rfl | rfl) | rfl) | rfl) | rfl) | rfl <;> simp [isHexChar] at h

/-! ## Helper lemmas: emissions of the scheduler and dispatcher -/

theorem readingsOf_append (a b : List Emit) :
    readingsOf (a ++ b) = readingsOf a ++ readingsOf b := by
  simp [readingsOf]

theorem readingsOf_sendCommand (s : Conn) (c : List Char) :
    readingsOf (sendCommand s c).2 = [] := by
  unfold sendCommand
  split <;> simp [readingsOf, Emit.readingOf]

theorem readingsOf_requestSinglePid (s : Conn) :
    readingsOf (requestSinglePid s).2 = [] := by
  simp only [requestSinglePid]
  rw [readingsOf_append, readingsOf_sendCommand]
  simp [readingsOf, Emit.readingOf]

theorem readingsOf_requestPidBatch (s : Conn) :
    readingsOf (requestPidBatch s).2 = [] := by
  unfold requestPidBatch
  split
  · exact readingsOf_requestSinglePid _
  · split
    · simp [readingsOf_requestSinglePid]
    · simp only []
      rw [readingsOf_append, readingsOf_sendCommand]
      simp [readingsOf, Emit.readingOf]

theorem readingsOf_requestNextPid (s : Conn) :
    readingsOf (requestNextPid s).2 = [] := by
  unfold requestNextPid
  split
  · simp [readingsOf]
  · split
    · exact readingsOf_requestPidBatch _
    · exact readingsOf_requestSinglePid _

theorem readingsOf_sendProbeCommand (s : Conn) :
    readingsOf (sendProbeCommand s).2 = [] := by
  unfold sendProbeCommand
  split
  · simp [readingsOf]
  · simp [readingsOf_sendCommand]

theorem readingsOf_startProbing (s : Conn) :
    readingsOf (startProbing s).2 = [] := readingsOf_sendProbeCommand _

theorem readingsOf_dispatchEvent (s : Conn) (e : CsmEvent) :
    readingsOf (dispatchCsmEvent s e).2 = [] := by
  cases e with
  | stateChange o n => simp [dispatchCsmEvent, readingsOf, Emit.readingOf]
  | startProbing => exact readingsOf_startProbing _
  | probe => exact readingsOf_sendProbeCommand _
  | resumeNormalPolling =>
    simp only [dispatchCsmEvent]
    split
    · exact readingsOf_requestNextPid _
    · simp [readingsOf]
  | connectionLost => simp [dispatchCsmEvent, readingsOf]

theorem readingsOf_dispatchEvents (s : Conn) (evs : List CsmEvent) :
    readingsOf (dispatchCsmEvents s evs).2 = [] := by
  induction evs generalizing s with
  | nil => simp [dispatchCsmEvents, readingsOf]
  | cons e rest ih =>
    simp [dispatchCsmEvents, readingsOf_append, readingsOf_dispatchEvent, ih]

theorem readingsOf_runCsm (s : Conn) (op : CSM → CSM × List CsmEvent) :
    readingsOf (runCsm s op).2 = [] := readingsOf_dispatchEvents _ _

theorem uniformMode_single (p : List Char) : uniformMode [p] = true := by
  cases h : isMode22Pid p <;> simp [uniformMode, h]

/-- `requestSinglePid` always issues a single-target Command; its outputs
are mode-uniform and single. -/
theorem requestSinglePid_emits_single (s : Conn) :
    (requestSinglePid s).2.all emitRequestSingle = true ∧
    (requestSinglePid s).2.all emitUniform = true ∧
    (requestSinglePid s).2.any emitIsRequest = true := by
  simp only [requestSinglePid, sendCommand]
  split <;>
    simp [emitRequestSingle, emitUniform, emitIsRequest, uniformMode_single]

/-- A Mode 22 identifier is at least 3 characters long. -/
theorem isMode22Pid_length {p : List Char} (h : isMode22Pid p = true) : 3 ≤ p.length := by
  rw [isMode22Pid, List.isPrefixOf_iff_prefix] at h
  simpa [tok22colon] using h.length_le

/-- If the Mode 22 window scan found nothing, every PID of the batch
window is a Mode 01 identifier. -/
theorem window_no_mode22 {pids : List (List Char)} {maxB cursor : Nat}
    (h : hasMode22Window pids maxB cursor = false) :
    ∀ i < min maxB (pids.length - cursor),
      isMode22Pid (pids.getD ((cursor + i) % pids.length) []) = false := by
  intro i hi
  have h1 : i < maxB := lt_of_lt_of_le hi (min_le_left _ _)
  have h2 : cursor + i < pids.length := by
    have := lt_of_lt_of_le hi (min_le_right _ _)
    omega
  rw [hasMode22Window, List.any_eq_false] at h
  have := h i (List.mem_range.2 h1)
  simpa [h2] using this

theorem sendCommand_all_uniform (s : Conn) (c : List Char) :
    (sendCommand s c).2.all emitUniform = true := by
  unfold sendCommand
  split <;> simp [emitUniform]

theorem requestPidBatch_all_uniform (s : Conn) :
    (requestPidBatch s).2.all emitUniform = true := by
  unfold requestPidBatch
  split
  · exact (requestSinglePid_emits_single _).2.1
  · split
    · simp only []
      exact (requestSinglePid_emits_single _).2.1
    · rename_i hw
      simp only []
      rw [List.all_append, sendCommand_all_uniform, Bool.true_and]
      simp only [List.all_cons, List.all_nil, Bool.and_true, emitUniform]
      have hfalse : hasMode22Window s.enabledPids s.maxBatchSize s.currentPidIndex = false := by
        simpa using hw
      rw [uniformMode, Bool.or_eq_true]
      right
      rw [List.all_eq_true]
      intro p hp
      rcases List.mem_map.1 hp with ⟨i, hi, rfl⟩
      rw [window_no_mode22 hfalse i (List.mem_range.1 hi)]
      rfl

theorem requestNextPid_all_uniform (s : Conn) :
    (requestNextPid s).2.all emitUniform = true := by
  unfold requestNextPid
  split
  · rfl
  · split
    · exact requestPidBatch_all_uniform _
    · exact (requestSinglePid_emits_single _).2.1

/-! ## Concrete states for scenarios and witnesses -/

/-- The state of a freshly constructed `OBD2Connection` with the
constructor's defaults (`batchMode` true, `maxBatchSize` 6,
`continuousMode` true) and no PID list. -/
def baseConn : Conn :=
  { enabledPids := [], currentPidIndex := 0, initialized := false, buffer := [],
    lastCommand := none, batchMode := true, maxBatchSize := 6, awaitingResponse := false,
    responseTimeoutArmed := false, continuousMode := true, batchModeFailed := false,
    currentBatch := none, initStage := none, isProbing := false, probeTimeoutArmed := false,
    reconnectTimeoutArmed := false, adapterCheckTimeoutArmed := false,
    engineCheckTimeoutArmed := false, engineCheckDelayArmed := false,
    completeInitDelayArmed := false, initDelayTimersPending := 0, portOpen := false,
    csm := initCSM }

/-- Claim C1's scenario: PID list `["0C","05","22:0545"]`, batch size 3,
cursor 0, active and initialized. -/
def c1Scenario : Conn :=
  { baseConn with
    enabledPids := [['0','C'], ['0','5'], ['2','2',':','0','5','4','5']]
    maxBatchSize := 3
    initialized := true
    portOpen := true
    csm := { initCSM with state := .active } }

/-- C1: every Command issued by `requestNextPid`/`requestPidBatch`/
`requestSinglePid` has targets of one mode only (all Mode 01 or all
Mode 22, never both); and on the PID list `["0C","05","22:0545"]` with
batch size 3 and cursor 0 the scheduler issues the single-PID Command
for `0C`, not a 3-PID batch. -/
theorem C1_command_mode_exclusivity :
    (∀ s : Conn, (requestSinglePid s).2.all emitUniform = true) ∧
    (∀ s : Conn, (requestPidBatch s).2.all emitUniform = true) ∧
    (∀ s : Conn, (requestNextPid s).2.all emitUniform = true) ∧
    requestsOf (requestNextPid c1Scenario).2 = [([['0','C']], ['0','1','0','C'])] :=
  ⟨fun s => (requestSinglePid_emits_single s).2.1,
   requestPidBatch_all_uniform,
   requestNextPid_all_uniform,
   by decide⟩

/-! ## Claim C3: Active → Probing exactly once, back on data -/

/-- `n` consecutive `NO DATA`/timeout events fed to the state manager. -/
def runNoData (m : CSM) : Nat → CSM × List CsmEvent
  | 0 => (m, [])
  | n + 1 =>
    let r := m.onNoData
    let r2 := runNoData r.1 n
    (r2.1, r.2 ++ r2.2)

/-- Is the event a state transition into `target`? -/
def isTransitionTo (target : CState) : CsmEvent → Bool
  | .stateChange _ n => n = target
  | _ => false

/-- The state manager in `ACTIVE` with the failure counter at 0. -/
def activeCSM : CSM := { initCSM with state := .active }

/-- The state manager after the threshold of failures: `PROBING` with 5
consecutive failures counted. -/
def probedCSM : CSM := { initCSM with state := .probing, consecutiveFailures := 5 }

theorem onNoData_probing {m : CSM} (h : m.state = .probing) :
    m.onNoData = ({ m with consecutiveFailures := m.consecutiveFailures + 1 }, []) := by
  simp [CSM.onNoData, h]

theorem runNoData_probing {m : CSM} (h : m.state = .probing) (k : Nat) :
    (runNoData m k).1.state = CState.probing ∧ (runNoData m k).2 = [] := by
  induction k generalizing m with
  | zero => exact ⟨h, rfl⟩
  | succ n ih =>
    rw [runNoData]
    simp only [onNoData_probing h]
    have hih := ih (m := { m with consecutiveFailures := m.consecutiveFailures + 1 }) h
    simpa using hih

theorem runNoData_active_split (k : Nat) :
    runNoData activeCSM (k + 5) =
      ((runNoData probedCSM k).1,
        [CsmEvent.stateChange .active .probing, CsmEvent.startProbing] ++
          (runNoData probedCSM k).2) := rfl

theorem onDataReceived_probing {m : CSM} (h : m.state = .probing) :
    m.onDataReceived.1.state = CState.active ∧
    m.onDataReceived.1.consecutiveFailures = 0 := by
  simp only [CSM.onDataReceived, CSM.setState, h]
  split
  · simp_all
    split <;> simp
  · simp_all

/-- C3: from `Active` with the failure counter at 0, a run of `5 + k`
consecutive NO-DATA events produces exactly one transition into
`Probing` (the events past the fifth re-fire nothing), leaves the
machine in `Probing`, and one successful reading then returns it to
`Active` with the consecutive-failure counter reset to 0. -/
theorem C3_five_failures_single_transition (k : Nat) :
    ((runNoData activeCSM (k + 5)).2.filter (isTransitionTo .probing)).length = 1 ∧
    (runNoData activeCSM (k + 5)).1.state = CState.probing ∧
    ((runNoData activeCSM (k + 5)).1.onDataReceived).1.state = CState.active ∧
    ((runNoData activeCSM (k + 5)).1.onDataReceived).1.consecutiveFailures = 0 := by
  have hpro := runNoData_probing (m := probedCSM) rfl k
  refine ⟨?_, hpro.1, (onDataReceived_probing hpro.1).1, (onDataReceived_probing hpro.1).2⟩
  show (([CsmEvent.stateChange .active .probing, CsmEvent.startProbing] ++
      (runNoData probedCSM k).2).filter (isTransitionTo .probing)).length = 1
  rw [hpro.2]
  decide

/-! ## Claim C4: probe reply NO DATA while Probing -/

/-- A connection in probe mode: state manager `PROBING`, probe sent,
normal polling stopped. -/
def c4Probing : Conn :=
  { baseConn with
    initialized := true
    continuousMode := false
    isProbing := true
    portOpen := true
    probeTimeoutArmed := true
    lastCommand := some cmd0100
    csm := { initCSM with state := .probing } }

/-- C4 evaluation: a probe reply of `NO DATA` while `Probing` makes
`handleProbeResponse` call `onProbeResponse(true, 'NO DATA')`, which
moves the state machine to `ACTIVE`; the subsequent `scheduleNextProbe()`
is then a no-op (it only arms while `PROBING`), so no probe-interval
timer is armed — the machine does not stay in `Probing` and no probe is
rescheduled, contrary to the claim and to the intent signalled by the
`scheduleNextProbe()` call itself. -/
theorem C4_probe_no_data_leaves_probing :
    (handleProbeResponse c4Probing tokNoData).1.csm.state = CState.active ∧
    (handleProbeResponse c4Probing tokNoData).1.csm.probeTimeout = false ∧
    (handleProbeResponse c4Probing tokNoData).2 =
      [Emit.stateChange CState.probing CState.active] := by decide

/-! ## Claim C8: what disconnect() cancels -/

/-- A torn-down-while-busy scenario: every timer of the instance armed,
including the state manager's probe-interval timer and the five
anonymous initialization-sequence timers. -/
def c8Scenario : Conn :=
  { baseConn with
    initialized := true
    portOpen := true
    responseTimeoutArmed := true
    reconnectTimeoutArmed := true
    probeTimeoutArmed := true
    adapterCheckTimeoutArmed := true
    engineCheckTimeoutArmed := true
    engineCheckDelayArmed := true
    completeInitDelayArmed := true
    initDelayTimersPending := 5
    csm := { initCSM with state := .probing, probeTimeout := true } }

/-- C8 counterexample: after `disconnect()` the state manager's
probe-interval timer is still armed and the five initialization-sequence
timers are still pending, so it is not the case that every pending timer
of the instance was cancelled. -/
theorem C8_counterexample :
    ¬((disconnect c8Scenario).csm.probeTimeout = false ∧
      (disconnect c8Scenario).initDelayTimersPending = 0) := by decide

/-- C8 amended: `disconnect()` synchronously cancels the request response
timeout, the probe timeout, the reconnect timeout and the adapter-check
and engine-check stage timeouts before releasing the transport, but it
leaves the state manager's probe-interval timer, the 500 ms stage-advance
delays and the anonymous initialization-sequence timers untouched. -/
theorem C8_disconnect_cancels_own_timers (s : Conn) :
    (disconnect s).responseTimeoutArmed = false ∧
    (disconnect s).probeTimeoutArmed = false ∧
    (disconnect s).reconnectTimeoutArmed = false ∧
    (disconnect s).adapterCheckTimeoutArmed = false ∧
    (disconnect s).engineCheckTimeoutArmed = false ∧
    (disconnect s).csm = s.csm ∧
    (disconnect s).initDelayTimersPending = s.initDelayTimersPending ∧
    (disconnect s).engineCheckDelayArmed = s.engineCheckDelayArmed ∧
    (disconnect s).completeInitDelayArmed = s.completeInitDelayArmed := by
  simp only [disconnect]
  split_ifs <;> simp_all

/-! ## Scheduler preservation lemmas -/

theorem requestPidBatch_emits (s : Conn) :
    (requestPidBatch s).2.any emitIsRequest = true := by
  unfold requestPidBatch
  split
  · exact (requestSinglePid_emits_single _).2.2
  · split
    · simp only []
      exact (requestSinglePid_emits_single _).2.2
    · simp only []
      rw [List.any_append]
      simp [emitIsRequest]

/-- When the guard of `requestNextPid` passes, a Command is issued. -/
theorem requestNextPid_emits {s : Conn} (h1 : s.initialized = true)
    (h2 : s.enabledPids.length ≠ 0) (h3 : s.awaitingResponse = false) :
    (requestNextPid s).2.any emitIsRequest = true := by
  unfold requestNextPid
  rw [if_neg (by simp [h1, h2, h3])]
  split
  · exact requestPidBatch_emits _
  · exact (requestSinglePid_emits_single _).2.2

theorem requestSinglePid_preserves (s : Conn) :
    (requestSinglePid s).1.csm = s.csm ∧
    (requestSinglePid s).1.batchModeFailed = s.batchModeFailed ∧
    (requestSinglePid s).1.batchMode = s.batchMode ∧
    (requestSinglePid s).1.continuousMode = s.continuousMode ∧
    (requestSinglePid s).1.initialized = s.initialized ∧
    (requestSinglePid s).1.enabledPids = s.enabledPids ∧
    (requestSinglePid s).1.buffer = s.buffer := by
  simp only [requestSinglePid, sendCommand]
  split <;> simp

theorem requestPidBatch_preserves (s : Conn) :
    (requestPidBatch s).1.csm = s.csm ∧
    (requestPidBatch s).1.batchModeFailed = s.batchModeFailed ∧
    (requestPidBatch s).1.continuousMode = s.continuousMode ∧
    (requestPidBatch s).1.initialized = s.initialized ∧
    (requestPidBatch s).1.enabledPids = s.enabledPids ∧
    (requestPidBatch s).1.buffer = s.buffer := by
  unfold requestPidBatch
  split
  · have h := requestSinglePid_preserves { s with batchMode := false }
    exact ⟨h.1, h.2.1, h.2.2.2.1, h.2.2.2.2.1, h.2.2.2.2.2.1, h.2.2.2.2.2.2⟩
  · split
    · have h := requestSinglePid_preserves { s with batchMode := false }
      exact ⟨h.1, h.2.1, h.2.2.2.1, h.2.2.2.2.1, h.2.2.2.2.2.1, h.2.2.2.2.2.2⟩
    · simp only [sendCommand]
      split <;> simp

theorem requestNextPid_preserves (s : Conn) :
    (requestNextPid s).1.csm = s.csm ∧
    (requestNextPid s).1.batchModeFailed = s.batchModeFailed ∧
    (requestNextPid s).1.continuousMode = s.continuousMode ∧
    (requestNextPid s).1.initialized = s.initialized ∧
    (requestNextPid s).1.enabledPids = s.enabledPids ∧
    (requestNextPid s).1.buffer = s.buffer := by
  unfold requestNextPid
  split
  · simp
  · split
    · exact requestPidBatch_preserves _
    · have h := requestSinglePid_preserves s
      exact ⟨h.1, h.2.1, h.2.2.2.1, h.2.2.2.2.1, h.2.2.2.2.2.1, h.2.2.2.2.2.2⟩

/-! ## Claim C5: the response-timeout callback -/

/-- A state whose response timeout is about to fire: a request is
outstanding and the failure counter is 0. -/
def c5Scenario : Conn :=
  { baseConn with
    enabledPids := [['0','C']]
    initialized := true
    portOpen := true
    awaitingResponse := true
    responseTimeoutArmed := true
    continuousMode := false
    csm := { initCSM with state := .active } }

/-- C5 counterexample: when the response timeout fires, the connection's
consecutive no-data counter is NOT incremented — the callback never calls
the state machine. -/
theorem C5_counterexample :
    ¬((responseTimeoutFire c5Scenario).1.csm.consecutiveFailures =
      c5Scenario.csm.consecutiveFailures + 1) := by decide

theorem responseTimeoutFire_csm (s : Conn) : (responseTimeoutFire s).1.csm = s.csm := by
  unfold responseTimeoutFire
  split <;> simp only [] <;> split
  case _ => exact (requestNextPid_preserves _).1
  case _ => rfl
  case _ => exact (requestNextPid_preserves _).1
  case _ => rfl


theorem responseTimeoutFire_batch {s : Conn} (hb : s.batchMode = true)
    (hcb : s.currentBatch.isSome = true) :
    (responseTimeoutFire s).1.batchModeFailed = true := by
  unfold responseTimeoutFire
  rw [if_pos (show s.batchMode = true ∧ s.currentBatch.isSome = true from ⟨hb, hcb⟩)]
  simp only []
  split
  · exact (requestNextPid_preserves _).2.1
  · rfl

theorem responseTimeoutFire_noncontinuous {s : Conn} (hc : s.continuousMode = false) :
    (responseTimeoutFire s).1.awaitingResponse = false ∧
    (responseTimeoutFire s).1.responseTimeoutArmed = false ∧
    (responseTimeoutFire s).2 = [] := by
  unfold responseTimeoutFire
  split <;> simp only [] <;> rw [if_neg (by simp [hc])] <;> exact ⟨rfl, rfl, rfl⟩

theorem responseTimeoutFire_continues {s : Conn} (hc : s.continuousMode = true)
    (hi : s.initialized = true) (hp : s.enabledPids.length ≠ 0) :
    (responseTimeoutFire s).2.any emitIsRequest = true := by
  unfold responseTimeoutFire
  split <;> simp only [] <;> rw [if_pos (by simpa using hc)] <;>
    exact requestNextPid_emits hi hp rfl

/-- C5 amended: on expiry the callback clears the pending-request flag
and disarms the timer, leaves the state manager (and so the consecutive
no-data counter) untouched, demotes batch mode permanently when a batch
is recorded, and in continuous mode immediately issues the next request
(so a timeout never leaves the polling loop blocked); outside continuous
mode it issues nothing. -/
theorem C5_timeout_clears_and_continues (s : Conn) :
    (responseTimeoutFire s).1.csm = s.csm ∧
    (s.batchMode = true → s.currentBatch.isSome = true →
      (responseTimeoutFire s).1.batchModeFailed = true) ∧
    (s.continuousMode = false →
      (responseTimeoutFire s).1.awaitingResponse = false ∧
      (responseTimeoutFire s).1.responseTimeoutArmed = false ∧
      (responseTimeoutFire s).2 = []) ∧
    (s.continuousMode = true → s.initialized = true → s.enabledPids.length ≠ 0 →
      (responseTimeoutFire s).2.any emitIsRequest = true) :=
  ⟨responseTimeoutFire_csm s,
   fun hb hcb => responseTimeoutFire_batch hb hcb,
   fun hc => responseTimeoutFire_noncontinuous hc,
   fun hc hi hp => responseTimeoutFire_continues hc hi hp⟩

/-! ## Claim C7: batch de-concatenation on PID mismatch -/

/-- The de-concatenation walker as claim C7 words it: on a PID mismatch
the cursor advances by exactly the identifier length (2 hex characters)
before continuing with the subsequent PIDs. Modelled from the claim for
comparison with `batchWalk`, the source's behavior. -/
def batchWalkClaimC7 (s : Conn) : List (List Char) → List Char → Conn × List Emit
  | [], _ => (s, [])
  | pid :: rest, remaining =>
    if remaining.length < 2 then (s, [])
    else
      let responsePid := remaining.take 2
      if responsePid ≠ pid then
        let r := batchWalkClaimC7 s rest (remaining.drop 2)
        (r.1, Emit.skip pid responsePid :: r.2)
      else
        match getPidDefinition pid with
        | none => batchWalkClaimC7 s rest (remaining.drop 2)
        | some pidDef =>
          let dataLength := pidDef.bytes * 2
          if remaining.length < 2 + dataLength then (s, [])
          else
            let individualResponse := tok41 ++ remaining.take (2 + dataLength)
            let r1 := processResponse s individualResponse
            let r2 := batchWalkClaimC7 r1.1 rest (remaining.drop (2 + dataLength))
            (r2.1, r1.2 ++ r2.2)

/-- A connection holding a recorded batch `["0C","05"]` whose adapter
answered only the second PID: reply `41 05 7B` concatenated. -/
def c7Scenario : Conn :=
  { baseConn with
    initialized := true
    portOpen := true
    currentBatch := some [['0','C'], ['0','5']]
    csm := { initCSM with state := .active } }

/-- C7 counterexample: on the reply `"41057B"` for pending batch
`["0C","05"]`, the source decoder leaves the cursor unchanged at the
mismatch of `0C` and so still decodes `05` (raw byte `0x7B`); under the
claim's advance-by-2 rule no reading would be produced. The two walkers
disagree at this concrete input. -/
theorem C7_counterexample :
    (readingsOf (processBatchResponseWithoutSpaces c7Scenario
        ['4','1','0','5','7','B']).2).map (fun r => (r.pid, r.raw)) =
      [(['0','5'], [123])] ∧
    readingsOf (batchWalkClaimC7 c7Scenario [['0','C'], ['0','5']]
        ['0','5','7','B']).2 = [] ∧
    (processBatchResponseWithoutSpaces c7Scenario ['4','1','0','5','7','B']).2 ≠
      (batchWalkClaimC7 c7Scenario [['0','C'], ['0','5']] ['0','5','7','B']).2 := by
  decide

/-- C7 amended: when the two hex characters at the read cursor do not
match the next expected PID of the pending batch, the decoder logs a
skip and continues with the subsequent PIDs at the SAME cursor (the
cursor is left unchanged; it advances by the identifier length only in
the matched-but-unknown-PID arm). -/
theorem C7_mismatch_keeps_cursor (s : Conn) (pid : List Char)
    (rest : List (List Char)) (remaining : List Char)
    (h2 : 2 ≤ remaining.length) (hne : remaining.take 2 ≠ pid) :
    batchWalk s (pid :: rest) remaining =
      ((batchWalk s rest remaining).1,
        Emit.skip pid (remaining.take 2) :: (batchWalk s rest remaining).2) := by
  rw [batchWalk]
  rw [if_neg (by omega)]
  simp only []
  rw [if_pos hne]

/-- C7 at a concrete input: target `0C`, reply starting `05AB`. -/
theorem C7_witness :
    batchWalk baseConn [['0','C']] ['0','5','A','B'] =
      ((batchWalk baseConn [] ['0','5','A','B']).1,
        Emit.skip ['0','C'] (['0','5','A','B'].take 2) ::
          (batchWalk baseConn [] ['0','5','A','B']).2) :=
  C7_mismatch_keeps_cursor baseConn ['0','C'] [] ['0','5','A','B'] (by decide) (by decide)

/-! ## Claim C2: sticky batch demotion

`demoted_*`: once `batchModeFailed` holds, every operation keeps it and
emits only single-target Commands. -/

theorem all_single_append {a b : List Emit} (ha : a.all emitRequestSingle = true)
    (hb : b.all emitRequestSingle = true) :
    (a ++ b).all emitRequestSingle = true := by
  simp [List.all_append, ha, hb]

theorem demoted_sendCommand {s : Conn} (h : s.batchModeFailed = true) (c : List Char) :
    (sendCommand s c).1.batchModeFailed = true ∧
    (sendCommand s c).2.all emitRequestSingle = true := by
  unfold sendCommand
  split <;> simp [h, emitRequestSingle]

theorem demoted_requestSinglePid {s : Conn} (h : s.batchModeFailed = true) :
    (requestSinglePid s).1.batchModeFailed = true ∧
    (requestSinglePid s).2.all emitRequestSingle = true :=
  ⟨by rw [(requestSinglePid_preserves s).2.1]; exact h,
   (requestSinglePid_emits_single s).1⟩

theorem demoted_requestPidBatch {s : Conn} (h : s.batchModeFailed = true) :
    (requestPidBatch s).1.batchModeFailed = true ∧
    (requestPidBatch s).2.all emitRequestSingle = true := by
  unfold requestPidBatch
  rw [if_pos h]
  exact demoted_requestSinglePid h

theorem demoted_requestNextPid {s : Conn} (h : s.batchModeFailed = true) :
    (requestNextPid s).1.batchModeFailed = true ∧
    (requestNextPid s).2.all emitRequestSingle = true := by
  unfold requestNextPid
  split
  · exact ⟨h, rfl⟩
  · split
    · exact demoted_requestPidBatch h
    · exact demoted_requestSinglePid h

theorem demoted_sendProbeCommand {s : Conn} (h : s.batchModeFailed = true) :
    (sendProbeCommand s).1.batchModeFailed = true ∧
    (sendProbeCommand s).2.all emitRequestSingle = true := by
  unfold sendProbeCommand
  split
  · exact ⟨h, rfl⟩
  · exact demoted_sendCommand
      (s := { s with lastCommand := some cmd0100, isProbing := true }) h cmd0100

theorem demoted_startProbing {s : Conn} (h : s.batchModeFailed = true) :
    (startProbing s).1.batchModeFailed = true ∧
    (startProbing s).2.all emitRequestSingle = true :=
  demoted_sendProbeCommand (s := { s with continuousMode := false }) h

theorem demoted_scheduleReconnect {s : Conn} (h : s.batchModeFailed = true) :
    (scheduleReconnect s).batchModeFailed = true := by
  unfold scheduleReconnect
  split <;> exact h

theorem demoted_dispatchEvent {s : Conn} (h : s.batchModeFailed = true) (e : CsmEvent) :
    (dispatchCsmEvent s e).1.batchModeFailed = true ∧
    (dispatchCsmEvent s e).2.all emitRequestSingle = true := by
  cases e with
  | stateChange o n => exact ⟨h, rfl⟩
  | startProbing => exact demoted_startProbing h
  | probe => exact demoted_sendProbeCommand h
  | resumeNormalPolling =>
    simp only [dispatchCsmEvent]
    split
    · exact demoted_requestNextPid h
    · exact ⟨h, rfl⟩
  | connectionLost => exact ⟨demoted_scheduleReconnect h, rfl⟩

theorem demoted_dispatchEvents (evs : List CsmEvent) : ∀ {s : Conn},
    s.batchModeFailed = true →
    (dispatchCsmEvents s evs).1.batchModeFailed = true ∧
    (dispatchCsmEvents s evs).2.all emitRequestSingle = true := by
  induction evs with
  | nil => intro s h; exact ⟨h, rfl⟩
  | cons e rest ih =>
    intro s h
    have h1 := demoted_dispatchEvent h e
    have h2 := ih h1.1
    exact ⟨h2.1, all_single_append h1.2 h2.2⟩

theorem demoted_runCsm {s : Conn} (h : s.batchModeFailed = true)
    (op : CSM → CSM × List CsmEvent) :
    (runCsm s op).1.batchModeFailed = true ∧
    (runCsm s op).2.all emitRequestSingle = true :=
  demoted_dispatchEvents _ (s := { s with csm := (op s.csm).1 }) h

theorem demoted_emitReading {s : Conn} (h : s.batchModeFailed = true)
    (pid : List Char) (bytes : List Nat) :
    (emitReading s pid bytes).1.batchModeFailed = true ∧
    (emitReading s pid bytes).2.all emitRequestSingle = true := by
  unfold emitReading
  split
  · exact ⟨h, rfl⟩
  · have h1 := demoted_runCsm h CSM.onDataReceived
    exact ⟨h1.1, all_single_append h1.2 rfl⟩

theorem demoted_processResponseParts {s : Conn} (h : s.batchModeFailed = true)
    (parts : List (List Char)) :
    (processResponseParts s parts).1.batchModeFailed = true ∧
    (processResponseParts s parts).2.all emitRequestSingle = true := by
  unfold processResponseParts
  simp only []
  split
  · exact ⟨h, rfl⟩
  · split
    · split
      · exact ⟨h, rfl⟩
      · exact demoted_emitReading h _ _
    · exact demoted_emitReading h _ _

theorem demoted_processResponse {s : Conn} (h : s.batchModeFailed = true)
    (r : List Char) :
    (processResponse s r).1.batchModeFailed = true ∧
    (processResponse s r).2.all emitRequestSingle = true := by
  unfold processResponse
  split
  · exact ⟨h, rfl⟩
  · split
    · exact demoted_processResponseParts h _
    · simp only []
      split <;> split <;>
        first
          | exact ⟨h, rfl⟩
          | exact demoted_processResponseParts h _

theorem demoted_batchWalk (pids : List (List Char)) : ∀ {s : Conn},
    s.batchModeFailed = true → ∀ remaining : List Char,
    (batchWalk s pids remaining).1.batchModeFailed = true ∧
    (batchWalk s pids remaining).2.all emitRequestSingle = true := by
  induction pids with
  | nil => intro s h remaining; exact ⟨h, rfl⟩
  | cons pid rest ih =>
    intro s h remaining
    rw [batchWalk]
    split
    · exact ⟨h, rfl⟩
    · simp only []
      split
      · have h1 := ih h remaining
        exact ⟨h1.1, h1.2⟩
      · split
        · exact ih h _
        · rename_i pidDef heq
          split
          · exact ⟨h, rfl⟩
          · have h1 := demoted_processResponse h
              (tok41 ++ remaining.take (2 + pidDef.bytes * 2))
            have h2 := ih h1.1 (remaining.drop (2 + pidDef.bytes * 2))
            exact ⟨h2.1, all_single_append h1.2 h2.2⟩

theorem demoted_pbrWithoutSpaces {s : Conn} (h : s.batchModeFailed = true)
    (r : List Char) :
    (processBatchResponseWithoutSpaces s r).1.batchModeFailed = true ∧
    (processBatchResponseWithoutSpaces s r).2.all emitRequestSingle = true := by
  unfold processBatchResponseWithoutSpaces
  split
  · exact ⟨h, rfl⟩
  · exact demoted_batchWalk _ h _

theorem demoted_processResponseList (rs : List (List Char)) : ∀ {s : Conn},
    s.batchModeFailed = true →
    (processResponseList s rs).1.batchModeFailed = true ∧
    (processResponseList s rs).2.all emitRequestSingle = true := by
  induction rs with
  | nil => intro s h; exact ⟨h, rfl⟩
  | cons r rest ih =>
    intro s h
    have h1 := demoted_processResponse h r
    have h2 := ih h1.1
    exact ⟨h2.1, all_single_append h1.2 h2.2⟩

theorem demoted_processBatchResponse {s : Conn} (h : s.batchModeFailed = true)
    (rs : List (List Char)) :
    (processBatchResponse s rs).1.batchModeFailed = true ∧
    (processBatchResponse s rs).2.all emitRequestSingle = true := by
  unfold processBatchResponse
  simp only []
  split
  · split
    · exact demoted_runCsm h _
    · split
      · exact ⟨h, rfl⟩
      · split
        · exact ⟨h, rfl⟩
        · split
          · split
            · exact ⟨rfl, rfl⟩
            · exact ⟨h, rfl⟩
          · exact ⟨h, rfl⟩
  · split
    · split
      · exact demoted_pbrWithoutSpaces h _
      · exact demoted_processResponseList _ h
    · exact demoted_processResponseList _ h

theorem demoted_handleAdapterCheckResponse {s : Conn} (h : s.batchModeFailed = true)
    (rs : List (List Char)) :
    (handleAdapterCheckResponse s rs).1.batchModeFailed = true ∧
    (handleAdapterCheckResponse s rs).2.all emitRequestSingle = true := by
  unfold handleAdapterCheckResponse
  simp only []
  split <;> exact ⟨h, rfl⟩

theorem demoted_handleEngineCheckResponse {s : Conn} (h : s.batchModeFailed = true)
    (rs : List (List Char)) :
    (handleEngineCheckResponse s rs).1.batchModeFailed = true ∧
    (handleEngineCheckResponse s rs).2.all emitRequestSingle = true := by
  unfold handleEngineCheckResponse
  simp only []
  split
  · exact ⟨h, rfl⟩
  · split
    · have h1 := demoted_runCsm (s := { s with engineCheckTimeoutArmed := false })
        h CSM.onEngineOff
      have h2 := demoted_startProbing (s := { (runCsm { s with engineCheckTimeoutArmed := false } CSM.onEngineOff).1 with initialized := true, initStage := none }) h1.1
      exact ⟨h2.1, all_single_append (all_single_append h1.2 rfl) h2.2⟩
    · exact ⟨h, rfl⟩

theorem demoted_handleProbeResponse {s : Conn} (h : s.batchModeFailed = true)
    (r : List Char) :
    (handleProbeResponse s r).1.batchModeFailed = true ∧
    (handleProbeResponse s r).2.all emitRequestSingle = true := by
  unfold handleProbeResponse
  split
  · have h1 := demoted_runCsm (s := { s with probeTimeoutArmed := false }) h
      (fun m => m.onProbeResponse true)
    exact ⟨h1.1, h1.2⟩
  · split
    · have h1 := demoted_runCsm (s := { s with probeTimeoutArmed := false }) h
        (fun m => m.onProbeResponse true)
      exact ⟨h1.1, h1.2⟩
    · have h1 := demoted_runCsm (s := { s with probeTimeoutArmed := false }) h
        (fun m => m.onProbeResponse false)
      exact ⟨h1.1, h1.2⟩

theorem demoted_handleDataCore {s : Conn} (h : s.batchModeFailed = true)
    (d : List Char) :
    (handleDataCore s d).1.batchModeFailed = true ∧
    (handleDataCore s d).2.all emitRequestSingle = true := by
  unfold handleDataCore
  simp only []
  split
  · exact ⟨h, rfl⟩
  · split
    · split
      · exact demoted_handleAdapterCheckResponse (s := { s with
          buffer := s.buffer ++ d, responseTimeoutArmed := false,
          awaitingResponse := false }) h _
      · split
        · exact demoted_handleEngineCheckResponse (s := { s with
            buffer := s.buffer ++ d, responseTimeoutArmed := false,
            awaitingResponse := false }) h _
        · split
          · exact demoted_handleProbeResponse (s := { s with
              buffer := s.buffer ++ d, responseTimeoutArmed := false,
              awaitingResponse := false }) h _
          · exact demoted_processBatchResponse (s := { s with
              buffer := s.buffer ++ d, responseTimeoutArmed := false,
              awaitingResponse := false }) h _
    · exact ⟨h, rfl⟩

theorem demoted_handleData {s : Conn} (h : s.batchModeFailed = true)
    (d : List Char) :
    (handleData s d).1.batchModeFailed = true ∧
    (handleData s d).2.all emitRequestSingle = true := by
  unfold handleData
  split
  · simp only []
    split
    · have h1 := demoted_handleDataCore h d
      have h2 := demoted_requestNextPid h1.1
      exact ⟨h2.1, all_single_append h1.2 h2.2⟩
    · exact demoted_handleDataCore h d
  · exact demoted_handleDataCore h d

theorem demoted_responseTimeoutFire {s : Conn} (h : s.batchModeFailed = true) :
    (responseTimeoutFire s).1.batchModeFailed = true ∧
    (responseTimeoutFire s).2.all emitRequestSingle = true := by
  unfold responseTimeoutFire
  split <;> simp only [] <;> split
  case _ => exact demoted_requestNextPid rfl
  case _ => exact ⟨rfl, rfl⟩
  case _ => exact demoted_requestNextPid h
  case _ => exact ⟨h, rfl⟩

/-- A batch is pending when the response timeout fires: the flag is set
before the immediate re-request, so even that request is single. -/
theorem demoted_responseTimeoutFire_trigger {s : Conn} (hb : s.batchMode = true)
    (hcb : s.currentBatch.isSome = true) :
    (responseTimeoutFire s).1.batchModeFailed = true ∧
    (responseTimeoutFire s).2.all emitRequestSingle = true := by
  unfold responseTimeoutFire
  rw [if_pos (show s.batchMode = true ∧ s.currentBatch.isSome = true from ⟨hb, hcb⟩)]
  simp only []
  split
  · exact demoted_requestNextPid rfl
  · exact ⟨rfl, rfl⟩

theorem demoted_step {s : Conn} (h : s.batchModeFailed = true) (e : Ev) :
    (step s e).1.batchModeFailed = true ∧
    (step s e).2.all emitRequestSingle = true := by
  cases e with
  | reqNext => exact demoted_requestNextPid h
  | timeoutFire => exact demoted_responseTimeoutFire h
  | dataChunk d => exact demoted_handleData h d

theorem demoted_run (evs : List Ev) : ∀ {s : Conn}, s.batchModeFailed = true →
    (run s evs).1.batchModeFailed = true ∧
    (run s evs).2.all emitRequestSingle = true := by
  induction evs with
  | nil => intro s h; exact ⟨h, rfl⟩
  | cons e rest ih =>
    intro s h
    have h1 := demoted_step h e
    have h2 := ih h1.1
    exact ⟨h2.1, all_single_append h1.2 h2.2⟩

/-- The `?`-reply of the adapter, ending in the prompt, as one data
chunk. -/
def questionChunk : List Char := ['?', '\x0d', '>']

/-- A `?` answer to the one pending (batched) request: the error branch
of `processBatchResponse` demotes batch mode. -/
theorem demoted_pbr_question {t : Conn} (hb : t.batchMode = true)
    (hcb : t.currentBatch.isSome = true) :
    (processBatchResponse t [['?']]).1.batchModeFailed = true ∧
    (processBatchResponse t [['?']]).2.all emitRequestSingle = true := by
  unfold processBatchResponse
  simp only []
  rw [if_pos (show (List.filter isDataResponse [['?']]).length = 0 from rfl)]
  rw [if_neg (by decide), if_neg (by decide), if_neg (by decide), if_pos (by decide)]
  rw [if_pos (show t.batchMode = true ∧ t.currentBatch.isSome = true from ⟨hb, hcb⟩)]
  exact ⟨rfl, rfl⟩

/-- Receiving `?` to the pending batched command demotes batch mode, and
every Command of the same chunk's immediate re-poll is already single. -/
theorem demoted_handleData_question {s : Conn} (hb : s.batchMode = true)
    (hcb : s.currentBatch.isSome = true) (hstage : s.initStage = none)
    (hprobe : s.isProbing = false) (hbuf : s.buffer = []) :
    (handleData s questionChunk).1.batchModeFailed = true ∧
    (handleData s questionChunk).2.all emitRequestSingle = true := by
  have e1 : (([] : List Char) ++ questionChunk) = questionChunk := rfl
  have e2 : questionChunk.contains '>' = true := rfl
  have e3 : cleanLines (splitCRLF questionChunk) = [['?']] := rfl
  simp only [handleData, handleDataCore, hbuf, e1, e2, e3]
  simp only [hstage, hprobe]
  simp only [not_true, if_true, if_false, ite_true, ite_false]
  simp only [show (([['?']] : List (List Char)).length ≠ 0) = True from by simp, if_true]
  simp only [if_neg (show ¬((none : Option InitStage) = some InitStage.adapterCheck) from by simp),
    if_neg (show ¬((none : Option InitStage) = some InitStage.engineCheck) from by simp)]
  simp only [if_neg (show ¬(false = true ∧ s.lastCommand = some cmd0100) from by simp)]
  set t : Conn := { s with
      buffer := questionChunk
      awaitingResponse := false
      responseTimeoutArmed := false
      initStage := none
      isProbing := false } with ht
  have hq := demoted_pbr_question (t := t) hb hcb
  by_cases hcont : (processBatchResponse t [['?']]).1.continuousMode = true ∧
      (processBatchResponse t [['?']]).1.initialized = true
  · rw [if_pos hcont]
    exact ⟨(demoted_requestNextPid
        (s := { (processBatchResponse t [['?']]).1 with buffer := [] }) hq.1).1,
      all_single_append hq.2 (demoted_requestNextPid
        (s := { (processBatchResponse t [['?']]).1 with buffer := [] }) hq.1).2⟩
  · rw [if_neg hcont]
    exact ⟨hq.1, hq.2⟩

/-- C2: once the pending batched request times out, or is answered with
the invalid-command token `?`, batch mode stays demoted for the rest of
the instance's life: along ANY continuation of poll/timeout/data events,
every scheduler-level Command issued from that point on is single-PID,
and `batchModeFailed` never clears. -/
theorem C2_batch_demotion_sticky (s : Conn) (evs : List Ev)
    (hb : s.batchMode = true) (hcb : s.currentBatch.isSome = true)
    (hstage : s.initStage = none) (hprobe : s.isProbing = false)
    (hbuf : s.buffer = []) :
    ((run s (Ev.timeoutFire :: evs)).1.batchModeFailed = true ∧
      (run s (Ev.timeoutFire :: evs)).2.all emitRequestSingle = true) ∧
    ((run s (Ev.dataChunk questionChunk :: evs)).1.batchModeFailed = true ∧
      (run s (Ev.dataChunk questionChunk :: evs)).2.all emitRequestSingle = true) := by
  constructor
  · have h1 := demoted_responseTimeoutFire_trigger hb hcb
    have h2 := demoted_run evs h1.1
    exact ⟨h2.1, all_single_append h1.2 h2.2⟩
  · have h1 := demoted_handleData_question hb hcb hstage hprobe hbuf
    have h2 := demoted_run evs h1.1
    exact ⟨h2.1, all_single_append h1.2 h2.2⟩

/-- A connection with a pending batch, for claim C2's witness. -/
def c2Witness : Conn := { baseConn with currentBatch := some [['0','C']] }

/-- C2 at a concrete input: pending batch for `0C`, each trigger followed
by no further events. -/
theorem C2_witness :
    ((run c2Witness [Ev.timeoutFire]).1.batchModeFailed = true ∧
      (run c2Witness [Ev.timeoutFire]).2.all emitRequestSingle = true) ∧
    ((run c2Witness [Ev.dataChunk questionChunk]).1.batchModeFailed = true ∧
      (run c2Witness [Ev.dataChunk questionChunk]).2.all emitRequestSingle = true) :=
  C2_batch_demotion_sticky c2Witness [] rfl rfl rfl rfl rfl

/-! ## Claim C9: the prompt releases the outstanding-request guard

`*_guard` lemmas: during normal (non-probing, post-initialization)
dispatch, no handler re-arms the awaiting-response flag or the response
timeout. -/

theorem onDataReceived_not_probing {m : CSM} (h : m.state ≠ .probing) :
    m.onDataReceived =
      ({ m with lastSuccessfulData := true, consecutiveFailures := 0 }, []) := by
  unfold CSM.onDataReceived
  rw [if_neg (by simpa using h)]

theorem sendProbeCommand_guard (s : Conn) :
    (sendProbeCommand s).1.awaitingResponse = s.awaitingResponse ∧
    (sendProbeCommand s).1.responseTimeoutArmed = s.responseTimeoutArmed := by
  unfold sendProbeCommand sendCommand
  split
  · exact ⟨rfl, rfl⟩
  · simp only []
    split <;> exact ⟨rfl, rfl⟩

theorem dispatchEvents_no_resume (evs : List CsmEvent)
    (h : CsmEvent.resumeNormalPolling ∉ evs) : ∀ s : Conn,
    (dispatchCsmEvents s evs).1.awaitingResponse = s.awaitingResponse ∧
    (dispatchCsmEvents s evs).1.responseTimeoutArmed = s.responseTimeoutArmed := by
  induction evs with
  | nil => intro s; exact ⟨rfl, rfl⟩
  | cons e rest ih =>
    intro s
    have hr : CsmEvent.resumeNormalPolling ∉ rest := fun hx => h (List.mem_cons_of_mem e hx)
    have h1 : (dispatchCsmEvent s e).1.awaitingResponse = s.awaitingResponse ∧
        (dispatchCsmEvent s e).1.responseTimeoutArmed = s.responseTimeoutArmed := by
      cases e with
      | stateChange o n => exact ⟨rfl, rfl⟩
      | startProbing => exact sendProbeCommand_guard _
      | probe => exact sendProbeCommand_guard _
      | resumeNormalPolling => exact absurd (List.mem_cons_self _ _) h
      | connectionLost =>
        simp only [dispatchCsmEvent, scheduleReconnect]
        split <;> exact ⟨rfl, rfl⟩
    have h2 := ih hr (dispatchCsmEvent s e).1
    exact ⟨h2.1.trans h1.1, h2.2.trans h1.2⟩

/-- The event list of `onNoData` never asks polling to resume. -/
theorem onNoData_no_resume (m : CSM) :
    CsmEvent.resumeNormalPolling ∉ m.onNoData.2 := by
  simp only [CSM.onNoData, CSM.setState]
  split <;> simp

theorem runCsm_onNoData_guard (s : Conn) :
    (runCsm s CSM.onNoData).1.awaitingResponse = s.awaitingResponse ∧
    (runCsm s CSM.onNoData).1.responseTimeoutArmed = s.responseTimeoutArmed :=
  dispatchEvents_no_resume _ (onNoData_no_resume s.csm) _

theorem emitReading_guard {s : Conn} (h : s.csm.state ≠ .probing)
    (pid : List Char) (bytes : List Nat) :
    (emitReading s pid bytes).1.awaitingResponse = s.awaitingResponse ∧
    (emitReading s pid bytes).1.responseTimeoutArmed = s.responseTimeoutArmed ∧
    (emitReading s pid bytes).1.csm.state = s.csm.state := by
  unfold emitReading
  split
  · exact ⟨rfl, rfl, rfl⟩
  · simp only [runCsm, onDataReceived_not_probing h]
    exact ⟨rfl, rfl, rfl⟩

theorem processResponseParts_guard {s : Conn} (h : s.csm.state ≠ .probing)
    (parts : List (List Char)) :
    (processResponseParts s parts).1.awaitingResponse = s.awaitingResponse ∧
    (processResponseParts s parts).1.responseTimeoutArmed = s.responseTimeoutArmed ∧
    (processResponseParts s parts).1.csm.state = s.csm.state := by
  unfold processResponseParts
  simp only []
  split
  · exact ⟨rfl, rfl, rfl⟩
  · split
    · split
      · exact ⟨rfl, rfl, rfl⟩
      · exact emitReading_guard h _ _
    · exact emitReading_guard h _ _

theorem processResponse_guard {s : Conn} (h : s.csm.state ≠ .probing)
    (r : List Char) :
    (processResponse s r).1.awaitingResponse = s.awaitingResponse ∧
    (processResponse s r).1.responseTimeoutArmed = s.responseTimeoutArmed ∧
    (processResponse s r).1.csm.state = s.csm.state := by
  unfold processResponse
  split
  · exact ⟨rfl, rfl, rfl⟩
  · split
    · exact processResponseParts_guard h _
    · simp only []
      split <;> split <;>
        first
          | exact ⟨rfl, rfl, rfl⟩
          | exact processResponseParts_guard h _

theorem processResponseList_guard (rs : List (List Char)) : ∀ {s : Conn},
    s.csm.state ≠ .probing →
    (processResponseList s rs).1.awaitingResponse = s.awaitingResponse ∧
    (processResponseList s rs).1.responseTimeoutArmed = s.responseTimeoutArmed ∧
    (processResponseList s rs).1.csm.state = s.csm.state := by
  induction rs with
  | nil => intro s _; exact ⟨rfl, rfl, rfl⟩
  | cons r rest ih =>
    intro s h
    have h1 := processResponse_guard h r
    have h2 := ih (s := (processResponse s r).1) (by rw [h1.2.2]; exact h)
    exact ⟨h2.1.trans h1.1, h2.2.1.trans h1.2.1, h2.2.2.trans h1.2.2⟩

theorem batchWalk_guard (pids : List (List Char)) : ∀ {s : Conn},
    s.csm.state ≠ .probing → ∀ remaining : List Char,
    (batchWalk s pids remaining).1.awaitingResponse = s.awaitingResponse ∧
    (batchWalk s pids remaining).1.responseTimeoutArmed = s.responseTimeoutArmed ∧
    (batchWalk s pids remaining).1.csm.state = s.csm.state := by
  induction pids with
  | nil => intro s _ remaining; exact ⟨rfl, rfl, rfl⟩
  | cons pid rest ih =>
    intro s h remaining
    rw [batchWalk]
    split
    · exact ⟨rfl, rfl, rfl⟩
    · simp only []
      split
      · exact ih h remaining
      · split
        · exact ih h _
        · rename_i pidDef heq
          split
          · exact ⟨rfl, rfl, rfl⟩
          · have h1 := processResponse_guard h (tok41 ++ remaining.take (2 + pidDef.bytes * 2))
            have h2 := ih (s := (processResponse s _).1) (by rw [h1.2.2]; exact h)
              (remaining.drop (2 + pidDef.bytes * 2))
            exact ⟨h2.1.trans h1.1, h2.2.1.trans h1.2.1, h2.2.2.trans h1.2.2⟩

theorem pbrWithoutSpaces_guard {s : Conn} (h : s.csm.state ≠ .probing)
    (r : List Char) :
    (processBatchResponseWithoutSpaces s r).1.awaitingResponse = s.awaitingResponse ∧
    (processBatchResponseWithoutSpaces s r).1.responseTimeoutArmed = s.responseTimeoutArmed ∧
    (processBatchResponseWithoutSpaces s r).1.csm.state = s.csm.state := by
  unfold processBatchResponseWithoutSpaces
  split
  · exact ⟨rfl, rfl, rfl⟩
  · exact batchWalk_guard _ h _

theorem processBatchResponse_guard {s : Conn} (h : s.csm.state ≠ .probing)
    (rs : List (List Char)) :
    (processBatchResponse s rs).1.awaitingResponse = s.awaitingResponse ∧
    (processBatchResponse s rs).1.responseTimeoutArmed = s.responseTimeoutArmed := by
  unfold processBatchResponse
  simp only []
  split
  · split
    · exact runCsm_onNoData_guard s
    · split
      · exact ⟨rfl, rfl⟩
      · split
        · exact ⟨rfl, rfl⟩
        · split
          · split
            · exact ⟨rfl, rfl⟩
            · exact ⟨rfl, rfl⟩
          · exact ⟨rfl, rfl⟩
  · split
    · split
      · exact ⟨(pbrWithoutSpaces_guard h _).1, (pbrWithoutSpaces_guard h _).2.1⟩
      · exact ⟨(processResponseList_guard _ h).1, (processResponseList_guard _ h).2.1⟩
    · exact ⟨(processResponseList_guard _ h).1, (processResponseList_guard _ h).2.1⟩

/-- C9: once the accumulated buffer holds the `>` prompt, `handleData`
clears the awaiting-response guard and cancels the response timeout
before dispatching the content, and clears the buffer — for any reply
content, error tokens and blank lines included (normal polling context:
no init stage, not probing). Afterwards the guard no longer blocks:
`requestNextPid` issues a Command whenever initialized with a non-empty
PID list. -/
theorem C9_prompt_releases_guard (s : Conn) (d : List Char)
    (hprompt : (s.buffer ++ d).contains '>' = true)
    (hstage : s.initStage = none) (hprobe : s.isProbing = false)
    (hcsm : s.csm.state ≠ CState.probing) :
    (handleDataCore s d).1.awaitingResponse = false ∧
    (handleDataCore s d).1.responseTimeoutArmed = false ∧
    (handleDataCore s d).1.buffer = [] ∧
    ((handleDataCore s d).1.initialized = true →
      (handleDataCore s d).1.enabledPids.length ≠ 0 →
      (requestNextPid (handleDataCore s d).1).2.any emitIsRequest = true) := by
  have hmain : (handleDataCore s d).1.awaitingResponse = false ∧
      (handleDataCore s d).1.responseTimeoutArmed = false ∧
      (handleDataCore s d).1.buffer = [] := by
    unfold handleDataCore
    simp only []
    rw [if_neg (show ¬¬((s.buffer ++ d).contains '>' = true) from fun hx => hx hprompt)]
    simp only [hstage, hprobe]
    simp only [if_neg (show ¬((none : Option InitStage) = some InitStage.adapterCheck)
        from by simp),
      if_neg (show ¬((none : Option InitStage) = some InitStage.engineCheck) from by simp),
      if_neg (show ¬(false = true ∧ s.lastCommand = some cmd0100) from by simp)]
    split
    · have hg := processBatchResponse_guard (s := { s with
          buffer := s.buffer ++ d
          responseTimeoutArmed := false
          awaitingResponse := false
          initStage := none
          isProbing := false }) hcsm (cleanLines (splitCRLF (s.buffer ++ d)))
      exact ⟨hg.1, hg.2, trivial⟩
    · exact ⟨rfl, rfl, trivial⟩
  exact ⟨hmain.1, hmain.2.1, hmain.2.2,
    fun hi hp => requestNextPid_emits hi hp hmain.1⟩

/-- C9 at a concrete input: a bare prompt chunk on an idle connection. -/
theorem C9_witness :
    (handleDataCore baseConn ['>']).1.awaitingResponse = false ∧
    (handleDataCore baseConn ['>']).1.responseTimeoutArmed = false ∧
    (handleDataCore baseConn ['>']).1.buffer = [] ∧
    ((handleDataCore baseConn ['>']).1.initialized = true →
      (handleDataCore baseConn ['>']).1.enabledPids.length ≠ 0 →
      (requestNextPid (handleDataCore baseConn ['>']).1).2.any emitIsRequest = true) :=
  C9_prompt_releases_guard baseConn ['>'] (by decide) rfl rfl (by decide)

/-! ## Claim C6: batch command / concatenated reply round trip -/

theorem hasSub_false_of_hex {hay : List Char} (hh : ∀ c ∈ hay, isHexChar c = true)
    {needle : List Char} {x : Char} (hx : x ∈ needle) (hxh : isHexChar x = false) :
    hasSub hay needle = false :=
  hasSub_eq_false hx fun hmem => by rw [hh x hmem] at hxh; cases hxh

theorem requestsOf_sendCommand (s : Conn) (c : List Char) :
    requestsOf (sendCommand s c).2 = [] := by
  unfold sendCommand
  split <;> simp [requestsOf, Emit.requestOf]

theorem parseHexNat_map (l : List Nat) (hl : ∀ b ∈ l, b < 256) :
    (l.map hexPair).map parseHexNat = l := by
  induction l with
  | nil => rfl
  | cons b t iht =>
    simp only [List.map_cons, List.cons.injEq]
    exact ⟨parseHexNat_hexPair (hl b (List.mem_cons_self b t)),
      iht fun y hy => hl y (List.mem_cons_of_mem b hy)⟩

/-- Decoding one spaceless Mode 01 frame `41 ++ pid ++ data` with a known
PID definition produces exactly the one Reading with the given raw
bytes. -/
theorem processResponse_hex (s : Conn) (p : List Char) (d : PidDef) (bs : List Nat)
    (hp2 : p.length = 2) (hphex : ∀ c ∈ p, isHexChar c = true)
    (hd : getPidDefinition p = some d) (hlen : bs.length = d.bytes)
    (hb1 : 1 ≤ d.bytes) (hb : ∀ b ∈ bs, b < 256) :
    readingsOf (processResponse s (tok41 ++ (p ++ hexOfBytes bs))).2 =
      [⟨p, d.name, d.convert bs, d.unit, bs⟩] := by
  obtain ⟨c1, c2, rfl⟩ := List.length_eq_two.1 hp2
  have hhex : ∀ c ∈ tok41 ++ ([c1, c2] ++ hexOfBytes bs), isHexChar c = true := by
    intro c hc
    rcases List.mem_append.1 hc with hc | hc
    · simp [tok41] at hc
      rcases hc with rfl | rfl <;> decide
    · rcases List.mem_append.1 hc with hc | hc
      · exact hphex c hc
      · exact mem_hexOfBytes_hex hb c hc
  have h41 : hasSub (tok41 ++ ([c1, c2] ++ hexOfBytes bs)) tok41 = true :=
    hasSub_of_prefix (by rfl)
  have hnod : hasSub (tok41 ++ ([c1, c2] ++ hexOfBytes bs)) tokNoData = false :=
    hasSub_false_of_hex hhex (x := 'O') (by decide) (by decide)
  have hsp : hasSub (tok41 ++ ([c1, c2] ++ hexOfBytes bs)) tokSpace = false :=
    hasSub_false_of_hex hhex (x := ' ') (by decide) (by decide)
  have htrim : trim (tok41 ++ ([c1, c2] ++ hexOfBytes bs)) =
      tok41 ++ ([c1, c2] ++ hexOfBytes bs) :=
    trim_eq_self_of fun c hc => isWS_eq_false_of_hex (hhex c hc)
  have hlength : (tok41 ++ ([c1, c2] ++ hexOfBytes bs)).length = 4 + 2 * bs.length := by
    simp [tok41, hexOfBytes_length]
    omega
  unfold processResponse
  rw [if_neg (show ¬((¬hasSub (tok41 ++ ([c1, c2] ++ hexOfBytes bs)) tok41 = true ∧
      ¬hasSub (tok41 ++ ([c1, c2] ++ hexOfBytes bs)) tok62 = true) ∨
      hasSub (tok41 ++ ([c1, c2] ++ hexOfBytes bs)) tokNoData = true) from fun hcon => by
    rcases hcon with ⟨hf, _⟩ | hf
    · exact hf h41
    · rw [hnod] at hf
      cases hf)]
  rw [if_neg (show ¬(hasSub (tok41 ++ ([c1, c2] ++ hexOfBytes bs)) tokSpace = true)
    from fun hcon => by rw [hsp] at hcon; cases hcon)]
  simp only [htrim]
  rw [if_neg (show ¬((tok41 ++ ([c1, c2] ++ hexOfBytes bs)).length <
      (if (tok62.isPrefixOf (tok41 ++ ([c1, c2] ++ hexOfBytes bs))) = true then 8 else 6) ∨
      (¬tok41.isPrefixOf (tok41 ++ ([c1, c2] ++ hexOfBytes bs)) = true ∧
       ¬tok62.isPrefixOf (tok41 ++ ([c1, c2] ++ hexOfBytes bs)) = true)) from by
    rw [show tok62.isPrefixOf (tok41 ++ ([c1, c2] ++ hexOfBytes bs)) = false from rfl]
    rw [show tok41.isPrefixOf (tok41 ++ ([c1, c2] ++ hexOfBytes bs)) = true from rfl]
    rw [hlength]
    intro hcon
    rcases hcon with hcon | hcon
    · rw [if_neg (show ¬(false = true) from by simp)] at hcon
      omega
    · simp at hcon)]
  rw [show (tok41 ++ ([c1, c2] ++ hexOfBytes bs)) = '4' :: '1' :: c1 :: c2 :: hexOfBytes bs
    from rfl]
  rw [pairs_cons2, pairs_cons2, pairs_hexOfBytes]
  unfold processResponseParts
  rw [if_neg (show ¬((['4','1'] :: [c1, c2] :: bs.map hexPair).length < 3 ∨
      ((['4','1'] :: [c1, c2] :: bs.map hexPair).getD 0 [] ≠ tok41 ∧
       (['4','1'] :: [c1, c2] :: bs.map hexPair).getD 0 [] ≠ tok62)) from by
    simp [tok41]
    omega)]
  rw [if_neg (show ¬((['4','1'] :: [c1, c2] :: bs.map hexPair).getD 0 [] = tok62) from by
    simp [tok62])]
  rw [show ((['4','1'] :: [c1, c2] :: bs.map hexPair).drop 2).map parseHexNat =
    (bs.map hexPair).map parseHexNat from rfl]
  rw [parseHexNat_map bs hb]
  rw [show (['4','1'] :: [c1, c2] :: bs.map hexPair).getD 1 [] = [c1, c2] from rfl]
  unfold emitReading
  simp only [hd]
  rw [readingsOf_append, readingsOf_runCsm]
  rfl

/-- Walking a batch reply that is the exact concatenation of each PID's
identifier and data yields one Reading per PID, in batch order, with the
correct byte slices. -/
theorem batchWalk_roundtrip (items : List (List Char × PidDef × List Nat)) :
    ∀ s : Conn,
    (∀ x ∈ items, x.1.length = 2 ∧ (∀ c ∈ x.1, isHexChar c = true) ∧
      getPidDefinition x.1 = some x.2.1 ∧ x.2.2.length = x.2.1.bytes ∧
      1 ≤ x.2.1.bytes ∧ ∀ b ∈ x.2.2, b < 256) →
    readingsOf (batchWalk s (items.map fun x => x.1)
        ((items.map fun x => x.1 ++ hexOfBytes x.2.2).flatten)).2 =
      items.map fun x => ⟨x.1, x.2.1.name, x.2.1.convert x.2.2, x.2.1.unit, x.2.2⟩ := by
  induction items with
  | nil => intro s h; rfl
  | cons x rest ih =>
    intro s h
    obtain ⟨hp2, hphex, hd, hlen, hb1, hb⟩ := h x (List.mem_cons_self x rest)
    have hxlen : (hexOfBytes x.2.2).length = 2 * x.2.1.bytes := by
      rw [hexOfBytes_length, hlen]
    have hflat : ((x :: rest).map fun y => y.1 ++ hexOfBytes y.2.2).flatten =
        x.1 ++ (hexOfBytes x.2.2 ++ ((rest.map fun y => y.1 ++ hexOfBytes y.2.2).flatten)) := by
      simp
    rw [List.map_cons, hflat, batchWalk]
    have hrem : (x.1 ++ (hexOfBytes x.2.2 ++
        ((rest.map fun y => y.1 ++ hexOfBytes y.2.2).flatten))).length =
        2 + 2 * x.2.1.bytes + ((rest.map fun y => y.1 ++ hexOfBytes y.2.2).flatten).length := by
      simp [hp2, hxlen]
      omega
    rw [if_neg (show ¬((x.1 ++ (hexOfBytes x.2.2 ++
        ((rest.map fun y => y.1 ++ hexOfBytes y.2.2).flatten))).length < 2) from by
      rw [hrem]; omega)]
    simp only []
    have htake2 : (x.1 ++ (hexOfBytes x.2.2 ++
        ((rest.map fun y => y.1 ++ hexOfBytes y.2.2).flatten))).take 2 = x.1 := by
      rw [List.take_append_eq_append_take, hp2]
      simp [List.take_of_length_le (le_of_eq hp2)]
    rw [if_neg (by rw [htake2]; exact fun hx => hx rfl)]
    simp only [hd]
    rw [if_neg (show ¬((x.1 ++ (hexOfBytes x.2.2 ++
        ((rest.map fun y => y.1 ++ hexOfBytes y.2.2).flatten))).length <
        2 + x.2.1.bytes * 2) from by rw [hrem]; omega)]
    have hlen12 : (x.1 ++ hexOfBytes x.2.2).length = 2 + x.2.1.bytes * 2 := by
      rw [List.length_append, hp2, hxlen]; omega
    have htake : (x.1 ++ (hexOfBytes x.2.2 ++
        ((rest.map fun y => y.1 ++ hexOfBytes y.2.2).flatten))).take (2 + x.2.1.bytes * 2) =
        x.1 ++ hexOfBytes x.2.2 := by
      rw [← List.append_assoc]
      exact List.take_left' hlen12
    have hdrop : (x.1 ++ (hexOfBytes x.2.2 ++
        ((rest.map fun y => y.1 ++ hexOfBytes y.2.2).flatten))).drop (2 + x.2.1.bytes * 2) =
        (rest.map fun y => y.1 ++ hexOfBytes y.2.2).flatten := by
      rw [← List.append_assoc]
      exact List.drop_left' hlen12
    rw [htake, hdrop]
    rw [readingsOf_append]
    rw [processResponse_hex _ x.1 x.2.1 x.2.2 hp2 hphex hd hlen hb1 hb]
    rw [ih _ (fun y hy => h y (List.mem_cons_of_mem x hy))]
    rfl

/-- No PID of length 2 is a Mode 22 identifier. -/
theorem isMode22Pid_of_len2 {p : List Char} (hp : p.length = 2) :
    isMode22Pid p = false := by
  by_contra hx
  have := isMode22Pid_length (by simpa using hx)
  omega

/-- The Mode 22 scan finds nothing when no enabled PID is Mode 22. -/
theorem hasMode22Window_eq_false {pids : List (List Char)} (maxB cursor : Nat)
    (h : ∀ p ∈ pids, isMode22Pid p = false) :
    hasMode22Window pids maxB cursor = false := by
  unfold hasMode22Window
  rw [List.any_eq_false]
  intro i _ hcon
  rw [Bool.and_eq_true] at hcon
  have hc : cursor + i < pids.length := of_decide_eq_true hcon.1
  have hm : (cursor + i) % pids.length < pids.length := Nat.mod_lt _ (by omega)
  have hmem : pids.getD ((cursor + i) % pids.length) [] ∈ pids := by
    rw [List.getD_eq_getElem _ _ hm]
    exact List.getElem_mem hm
  have hfalse : isMode22Pid (pids.getD ((cursor + i) % pids.length) []) = false :=
    h _ hmem
  rw [hfalse] at hcon
  exact Bool.false_ne_true hcon.2

/-- Evaluation of the scheduler on a three-PID Mode 01 list with batch
size 3 and cursor 0: one batch Command `"01" + A + B + C` is issued and
`currentBatch` records `[A, B, C]`. -/
theorem requestNextPid_batch_eval (s : Conn) (pA pB pC : List Char)
    (hini : s.initialized = true)
    (hawait : s.awaitingResponse = false)
    (hbm : s.batchMode = true)
    (hbmf : s.batchModeFailed = false)
    (hport : s.portOpen = true)
    (hpids : s.enabledPids = [pA, pB, pC])
    (hcur : s.currentPidIndex = 0)
    (hmax : s.maxBatchSize = 3)
    (hwin : hasMode22Window s.enabledPids s.maxBatchSize s.currentPidIndex = false) :
    requestNextPid s =
      ({ s with
          enabledPids := [pA, pB, pC]
          lastCommand := some (tok01 ++ [pA, pB, pC].flatten)
          awaitingResponse := true
          responseTimeoutArmed := true
          currentBatch := some [pA, pB, pC]
          currentPidIndex := 0 },
       [.cmd (tok01 ++ [pA, pB, pC].flatten),
        .request [pA, pB, pC] (tok01 ++ [pA, pB, pC].flatten)]) := by
  unfold requestNextPid
  rw [if_neg (show ¬(¬s.initialized = true ∨ s.enabledPids.length = 0 ∨
      s.awaitingResponse = true) from by
    rw [hini, hpids, hawait]; simp)]
  rw [if_pos hbm]
  unfold requestPidBatch
  rw [if_neg (show ¬s.batchModeFailed = true from by rw [hbmf]; simp)]
  rw [if_neg (show ¬hasMode22Window s.enabledPids s.maxBatchSize s.currentPidIndex = true
    from by rw [hwin]; simp)]
  simp only []
  rw [hpids, hcur, hmax]
  unfold sendCommand
  rw [if_pos hport]
  dsimp only
  rw [hcur, hpids, hmax]
  have hM : (List.map (fun i => [pA, pB, pC].getD
        ((0 + i) % ([pA, pB, pC] : List (List Char)).length) [])
      (List.range (min 3 (([pA, pB, pC] : List (List Char)).length - 0)))) =
      [pA, pB, pC] := by
    simp [List.range_succ, List.getD]
  have hI : (0 + min 3 (([pA, pB, pC] : List (List Char)).length - 0)) %
      ([pA, pB, pC] : List (List Char)).length = 0 := by
    simp
  rw [hM, hI]
  rfl

/-- C6: round-trip of a batch. For any three Mode 01 PIDs `A`, `B`, `C`
with table definitions of declared byte lengths, the scheduler on
`[A, B, C]` with batch size 3 and cursor 0 issues the single batch
Command `"01" + A + B + C`, and feeding the decoder the concatenated
reply `"41" + A + dataA + B + dataB + C + dataC` (each `dataX` being
exactly the hex spelling of `byteLength(X)` bytes) yields exactly three
Readings, in the order `A`, `B`, `C`, carrying the raw byte slices
`dataA`, `dataB`, `dataC` and the per-PID converted values. -/
theorem C6_batch_roundtrip (s : Conn) (pA pB pC : List Char) (dA dB dC : PidDef)
    (bsA bsB bsC : List Nat)
    (hini : s.initialized = true) (hawait : s.awaitingResponse = false)
    (hbm : s.batchMode = true) (hbmf : s.batchModeFailed = false)
    (hport : s.portOpen = true)
    (hpids : s.enabledPids = [pA, pB, pC])
    (hcur : s.currentPidIndex = 0) (hmax : s.maxBatchSize = 3)
    (hA : pA.length = 2 ∧ (∀ c ∈ pA, isHexChar c = true) ∧ getPidDefinition pA = some dA ∧
      bsA.length = dA.bytes ∧ 1 ≤ dA.bytes ∧ ∀ b ∈ bsA, b < 256)
    (hB : pB.length = 2 ∧ (∀ c ∈ pB, isHexChar c = true) ∧ getPidDefinition pB = some dB ∧
      bsB.length = dB.bytes ∧ 1 ≤ dB.bytes ∧ ∀ b ∈ bsB, b < 256)
    (hC : pC.length = 2 ∧ (∀ c ∈ pC, isHexChar c = true) ∧ getPidDefinition pC = some dC ∧
      bsC.length = dC.bytes ∧ 1 ≤ dC.bytes ∧ ∀ b ∈ bsC, b < 256) :
    requestsOf (requestNextPid s).2 = [([pA, pB, pC], tok01 ++ [pA, pB, pC].flatten)] ∧
    readingsOf (processBatchResponseWithoutSpaces (requestNextPid s).1
        (tok41 ++ (pA ++ hexOfBytes bsA ++ (pB ++ hexOfBytes bsB ++
          (pC ++ hexOfBytes bsC))))).2 =
      [⟨pA, dA.name, dA.convert bsA, dA.unit, bsA⟩,
       ⟨pB, dB.name, dB.convert bsB, dB.unit, bsB⟩,
       ⟨pC, dC.name, dC.convert bsC, dC.unit, bsC⟩] := by
  have hwin : hasMode22Window s.enabledPids s.maxBatchSize s.currentPidIndex = false := by
    rw [hpids]
    apply hasMode22Window_eq_false
    intro p hp
    simp at hp
    rcases hp with rfl | rfl | rfl
    · exact isMode22Pid_of_len2 hA.1
    · exact isMode22Pid_of_len2 hB.1
    · exact isMode22Pid_of_len2 hC.1
  have he := requestNextPid_batch_eval s pA pB pC hini hawait hbm hbmf hport hpids hcur hmax hwin
  have hflat : tok41 ++ (pA ++ hexOfBytes bsA ++ (pB ++ hexOfBytes bsB ++
      (pC ++ hexOfBytes bsC))) =
      tok41 ++ ([(pA, dA, bsA), (pB, dB, bsB), (pC, dC, bsC)].map
        fun x => x.1 ++ hexOfBytes x.2.2).flatten := by
    simp
  constructor
  · rw [he]
    rfl
  · rw [he, hflat]
    have hmem : ∀ x ∈ [(pA, dA, bsA), (pB, dB, bsB), (pC, dC, bsC)],
        x.1.length = 2 ∧ (∀ c ∈ x.1, isHexChar c = true) ∧
        getPidDefinition x.1 = some x.2.1 ∧ x.2.2.length = x.2.1.bytes ∧
        1 ≤ x.2.1.bytes ∧ ∀ b ∈ x.2.2, b < 256 := by
      intro x hx
      simp at hx
      rcases hx with rfl | rfl | rfl
      · exact hA
      · exact hB
      · exact hC
    have hbw := batchWalk_roundtrip [(pA, dA, bsA), (pB, dB, bsB), (pC, dC, bsC)]
      ({ s with
          enabledPids := [pA, pB, pC]
          lastCommand := some (tok01 ++ [pA, pB, pC].flatten)
          awaitingResponse := true
          responseTimeoutArmed := true
          currentBatch := some [pA, pB, pC]
          currentPidIndex := 0 }) hmem
    unfold processBatchResponseWithoutSpaces
    rw [if_neg (show ¬¬(tok41.isPrefixOf (tok41 ++
        ([(pA, dA, bsA), (pB, dB, bsB), (pC, dC, bsC)].map
          fun x => x.1 ++ hexOfBytes x.2.2).flatten) = true) from by
      simp [tok41, List.isPrefixOf_iff_prefix])]
    exact hbw

/-- The table's entry for PID `0C` (engine speed). -/
def c6DefC : PidDef := ⟨"Engine speed", 2, "rpm", fun bs => b01 bs / 4⟩

/-- The table's entry for PID `05` (coolant temperature). -/
def c6Def05 : PidDef := ⟨"Engine coolant temperature", 1, "°C", fun bs => b0 bs - 40⟩

/-- The table's entry for PID `04` (engine load). -/
def c6Def04 : PidDef := ⟨"Calculated engine load", 1, "%", fun bs => b0 bs * 100 / 255⟩

/-- An initialized batch-mode connection polling `0C`, `05`, `04` with
batch size 3, for claim C6's witness. -/
def c6Witness : Conn :=
  { baseConn with
    enabledPids := [['0','C'], ['0','5'], ['0','4']]
    maxBatchSize := 3
    initialized := true
    portOpen := true }

/-- C6 at a concrete input: the batch `010C0504` and the reply
`410C01057B0440`. -/
theorem C6_witness :
    requestsOf (requestNextPid c6Witness).2 =
      [([['0','C'], ['0','5'], ['0','4']],
        tok01 ++ [['0','C'], ['0','5'], ['0','4']].flatten)] ∧
    readingsOf (processBatchResponseWithoutSpaces (requestNextPid c6Witness).1
        (tok41 ++ (['0','C'] ++ hexOfBytes [1, 5] ++ (['0','5'] ++ hexOfBytes [123] ++
          (['0','4'] ++ hexOfBytes [64]))))).2 =
      [⟨['0','C'], c6DefC.name, c6DefC.convert [1, 5], c6DefC.unit, [1, 5]⟩,
       ⟨['0','5'], c6Def05.name, c6Def05.convert [123], c6Def05.unit, [123]⟩,
       ⟨['0','4'], c6Def04.name, c6Def04.convert [64], c6Def04.unit, [64]⟩] :=
  C6_batch_roundtrip c6Witness ['0','C'] ['0','5'] ['0','4'] c6DefC c6Def05 c6Def04
    [1, 5] [123] [64] rfl rfl rfl rfl rfl rfl rfl rfl
    ⟨by decide, by decide, rfl, by decide, by decide, by decide⟩
    ⟨by decide, by decide, rfl, by decide, by decide, by decide⟩
    ⟨by decide, by decide, rfl, by decide, by decide, by decide⟩

/-! ## Claim C10: when the spaceless batch split is attempted -/

/-- C10: for a single parsed data line (prefix `41`) with no space, the
spaceless batch split runs exactly when batch mode is active with a
recorded batch and the line is longer than 10 characters; a line of at
most 10 characters is processed as one ordinary frame; and two data
lines are processed frame by frame, never split. -/
theorem C10_spaceless_split_conditions (s : Conn) (r r2 : List Char)
    (hd : tok41.isPrefixOf r = true) (hsp : hasSub r tokSpace = false) :
    (s.batchMode = true → s.currentBatch.isSome = true → 10 < r.length →
      processBatchResponse s [r] = processBatchResponseWithoutSpaces s r) ∧
    (r.length ≤ 10 → processBatchResponse s [r] = processResponse s r) ∧
    (tok41.isPrefixOf r2 = true →
      processBatchResponse s [r, r2] =
        ((processResponse (processResponse s r).1 r2).1,
          (processResponse s r).2 ++ (processResponse (processResponse s r).1 r2).2)) := by
  have hdr : isDataResponse r = true := by simp [isDataResponse, hd]
  refine ⟨?_, ?_, ?_⟩
  · intro hb hcb hlen
    simp only [processBatchResponse, List.filter_cons, hdr, if_pos trivial,
      List.filter_nil]
    rw [if_neg (by simp), if_pos ⟨by simp, hb, hcb⟩]
    simp only [List.getD_cons_zero]
    rw [if_pos ⟨by simp [hsp], hlen⟩]
  · intro hlen
    simp only [processBatchResponse, List.filter_cons, hdr, if_pos trivial,
      List.filter_nil]
    rw [if_neg (by simp)]
    have hlist : processResponseList s [r] = processResponse s r := by
      simp [processResponseList]
    by_cases hb : ([r].length = 1 ∧ s.batchMode = true ∧ s.currentBatch.isSome = true)
    · rw [if_pos hb]
      simp only [List.getD_cons_zero]
      rw [if_neg (by omega), hlist]
    · rw [if_neg hb, hlist]
  · intro hd2
    have hdr2 : isDataResponse r2 = true := by simp [isDataResponse, hd2]
    simp only [processBatchResponse, List.filter_cons, hdr, hdr2, if_pos trivial,
      List.filter_nil]
    rw [if_neg (by simp), if_neg (by simp)]
    simp [processResponseList]

/-- C10 at a concrete input: the 12-character line `410C1A2B410B` and the
6-character line `41057B`. -/
theorem C10_witness :
    (baseConn.batchMode = true → baseConn.currentBatch.isSome = true →
      10 < (['4','1','0','C','1','A','2','B','4','1','0','B'] : List Char).length →
      processBatchResponse baseConn [['4','1','0','C','1','A','2','B','4','1','0','B']] =
        processBatchResponseWithoutSpaces baseConn
          ['4','1','0','C','1','A','2','B','4','1','0','B']) ∧
    ((['4','1','0','C','1','A','2','B','4','1','0','B'] : List Char).length ≤ 10 →
      processBatchResponse baseConn [['4','1','0','C','1','A','2','B','4','1','0','B']] =
        processResponse baseConn ['4','1','0','C','1','A','2','B','4','1','0','B']) ∧
    (tok41.isPrefixOf ['4','1','0','5','7','B'] = true →
      processBatchResponse baseConn
          [['4','1','0','C','1','A','2','B','4','1','0','B'], ['4','1','0','5','7','B']] =
        ((processResponse (processResponse baseConn
            ['4','1','0','C','1','A','2','B','4','1','0','B']).1 ['4','1','0','5','7','B']).1,
          (processResponse baseConn ['4','1','0','C','1','A','2','B','4','1','0','B']).2 ++
            (processResponse (processResponse baseConn
              ['4','1','0','C','1','A','2','B','4','1','0','B']).1
              ['4','1','0','5','7','B']).2)) :=
  C10_spaceless_split_conditions baseConn
    ['4','1','0','C','1','A','2','B','4','1','0','B'] ['4','1','0','5','7','B']
    (by decide) (by decide)

end OBD2
